import Mathlib

/-!
Shallow embedding of the USB Type-C / Power Delivery state-machine core of
`drivers/mfd/fusb302.c` (rklinux).  Pure protocol state (the `fusb30x_chip`
fields that the state machine reads and writes) is modelled as a Lean
structure; register-transport reads (CC comparator results, VBUS level,
receive FIFO contents, charger limits) are supplied by an environment
record, mirroring the spec's split between the protocol core and the
register/transport collaborators.  Register writes with no modelled state
effect are omitted, as the spec places the register transport outside the
core.  The companion header `fusb302.h` is not among the sources; every
constant or accessor that lives there is marked `Modelled from the spec:`
in its doc comment.
-/

namespace Fusb302

/-! ## Constants from fusb302.c -/

/-- CC voltage classification, fusb302.c lines 26-29. -/
def TYPEC_CC_VOLT_OPEN : Nat := 0

/-- CC volt class Ra, fusb302.c line 27. -/
def TYPEC_CC_VOLT_RA : Nat := 1

/-- CC volt class Rd, fusb302.c line 28. -/
def TYPEC_CC_VOLT_RD : Nat := 2

/-- CC volt class Rp, fusb302.c line 29. -/
def TYPEC_CC_VOLT_RP : Nat := 3

/-- Event bit: CC change, fusb302.c line 31. -/
def EVENT_CC : Nat := 1

/-- Event bit: message received, fusb302.c line 32. -/
def EVENT_RX : Nat := 2

/-- Event bit: transmit complete, fusb302.c line 33. -/
def EVENT_TX : Nat := 4

/-- Event bit: hard reset received, fusb302.c line 34. -/
def EVENT_REC_RESET : Nat := 8

/-- Event bit: work continuation, fusb302.c line 35. -/
def EVENT_WORK_CONTINUE : Nat := 32

/-- Event bit: mux timer expired, fusb302.c line 36. -/
def EVENT_TIMER_MUX : Nat := 64

/-- Event bit: state timer expired, fusb302.c line 37. -/
def EVENT_TIMER_STATE : Nat := 128

/-- Event bit: delayed CC check, fusb302.c line 38. -/
def EVENT_DELAY_CC : Nat := 256

/-- FLAG_EVENT mask, fusb302.c lines 39-40. -/
def FLAG_EVENT : Nat := EVENT_RX ||| EVENT_TIMER_MUX ||| EVENT_TIMER_STATE

/-- Pin assignment A bit, fusb302.c line 66. -/
def MODE_DP_PIN_A : Nat := 1

/-- Pin assignment B bit, fusb302.c line 67. -/
def MODE_DP_PIN_B : Nat := 2

/-- Pin assignment C bit, fusb302.c line 68. -/
def MODE_DP_PIN_C : Nat := 4

/-- Pin assignment D bit, fusb302.c line 69. -/
def MODE_DP_PIN_D : Nat := 8

/-- Pin assignment E bit, fusb302.c line 70. -/
def MODE_DP_PIN_E : Nat := 16

/-- Pin assignment F bit, fusb302.c line 71. -/
def MODE_DP_PIN_F : Nat := 32

/-- Multi-function pin configs B/D/F, fusb302.c line 74. -/
def MODE_DP_PIN_MF_MASK : Nat := MODE_DP_PIN_B ||| MODE_DP_PIN_D ||| MODE_DP_PIN_F

/-- BR2-signaling pin configs A/B, fusb302.c line 76. -/
def MODE_DP_PIN_BR2_MASK : Nat := MODE_DP_PIN_A ||| MODE_DP_PIN_B

/-- DP-signaling pin configs C/D/E/F, fusb302.c lines 78-79. -/
def MODE_DP_PIN_DP_MASK : Nat :=
  MODE_DP_PIN_C ||| MODE_DP_PIN_D ||| MODE_DP_PIN_E ||| MODE_DP_PIN_F

/-- Pin-assignment capability field of a DP mode VDO, fusb302.c lines 62-63. -/
def PD_DP_PIN_CAPS (x : Nat) : Nat :=
  if (x >>> 6) &&& 1 = 1 then (x >>> 16) &&& 0x3f else (x >>> 8) &&& 0x3f

/-- USB Gen2 signaling bit of a DP mode VDO, fusb302.c line 64. -/
def PD_DP_SIGNAL_GEN2 (x : Nat) : Nat := (x >>> 3) &&& 1

/-- HPD IRQ bit of a DP status VDO, fusb302.c line 95. -/
def PD_VDO_DPSTS_HPD_IRQ (x : Nat) : Nat := (x >>> 8) &&& 1

/-- HPD level bit of a DP status VDO, fusb302.c line 96. -/
def PD_VDO_DPSTS_HPD_LVL (x : Nat) : Nat := (x >>> 7) &&& 1

/-- Multi-function preference bit of a DP status VDO, fusb302.c line 97. -/
def PD_VDO_DPSTS_MF_PREF (x : Nat) : Nat := (x >>> 4) &&& 1

/-! ## Constants modelled from the spec (the header is absent from src/) -/

/-- Modelled from the spec: PD message header object count, bits 14:12
(spec section 4.2, and the packing in `set_mesg`). -/
def PD_HEADER_CNT (header : Nat) : Nat := (header >>> 12) &&& 7

/-- Modelled from the spec: PD message header message type, bits 3:0
(spec section 4.2, and the packing in `set_mesg`). -/
def PD_HEADER_TYPE (header : Nat) : Nat := header &&& 0xf

/-- Control-message test, fusb302.c lines 42-44. -/
def PACKET_IS_CONTROL_MSG (header ty : Nat) : Prop :=
  PD_HEADER_CNT header = 0 ∧ PD_HEADER_TYPE header = ty

instance (header ty : Nat) : Decidable (PACKET_IS_CONTROL_MSG header ty) :=
  inferInstanceAs (Decidable (_ ∧ _))

/-- Data-message test, fusb302.c lines 46-48. -/
def PACKET_IS_DATA_MSG (header ty : Nat) : Prop :=
  PD_HEADER_CNT header ≠ 0 ∧ PD_HEADER_TYPE header = ty

instance (header ty : Nat) : Decidable (PACKET_IS_DATA_MSG header ty) :=
  inferInstanceAs (Decidable (_ ∧ _))

/-- Modelled from the spec: PD control-message type GoodCRC. -/
def CMT_GOODCRC : Nat := 1

/-- Modelled from the spec: PD control-message type Accept. -/
def CMT_ACCEPT : Nat := 3

/-- Modelled from the spec: PD control-message type Reject. -/
def CMT_REJECT : Nat := 4

/-- Modelled from the spec: PD control-message type PS_RDY. -/
def CMT_PS_RDY : Nat := 6

/-- Modelled from the spec: PD control-message type Get_Sink_Cap. -/
def CMT_GETSINKCAP : Nat := 8

/-- Modelled from the spec: PD control-message type DR_Swap. -/
def CMT_DR_SWAP : Nat := 9

/-- Modelled from the spec: PD control-message type PR_Swap. -/
def CMT_PR_SWAP : Nat := 10

/-- Modelled from the spec: PD control-message type VCONN_Swap. -/
def CMT_VCONN_SWAP : Nat := 11

/-- Modelled from the spec: PD control-message type Wait. -/
def CMT_WAIT : Nat := 12

/-- Modelled from the spec: PD control-message type Soft_Reset. -/
def CMT_SOFTRESET : Nat := 13

/-- Modelled from the spec: PD data-message type Source_Capabilities. -/
def DMT_SOURCECAPABILITIES : Nat := 1

/-- Modelled from the spec: PD data-message type Request. -/
def DMT_REQUEST : Nat := 2

/-- Modelled from the spec: PD data-message type Sink_Capabilities. -/
def DMT_SINKCAPABILITIES : Nat := 4

/-- Modelled from the spec: PD data-message type Vendor_Defined. -/
def DMT_VENDERDEFINED : Nat := 15

/-- Modelled from the spec: flag selecting a control message in `set_mesg`. -/
def CONTROLMESSAGE : Nat := 0

/-- Modelled from the spec: flag selecting a data message in `set_mesg`. -/
def DATAMESSAGE : Nat := 1

/-- Modelled from the spec: structured-VDM command Discover Identity. -/
def VDM_DISCOVERY_ID : Nat := 1

/-- Modelled from the spec: structured-VDM command Discover SVIDs. -/
def VDM_DISCOVERY_SVIDS : Nat := 2

/-- Modelled from the spec: structured-VDM command Discover Modes. -/
def VDM_DISCOVERY_MODES : Nat := 3

/-- Modelled from the spec: structured-VDM command Enter Mode. -/
def VDM_ENTER_MODE : Nat := 4

/-- Modelled from the spec: structured-VDM command Exit Mode. -/
def VDM_EXIT_MODE : Nat := 5

/-- Modelled from the spec: structured-VDM command Attention. -/
def VDM_ATTENTION : Nat := 6

/-- Modelled from the spec: DisplayPort VDM command Status Update. -/
def VDM_DP_STATUS_UPDATE : Nat := 16

/-- Modelled from the spec: DisplayPort VDM command DP Configure. -/
def VDM_DP_CONFIG : Nat := 17

/-- Modelled from the spec: VDM command type Initiator. -/
def VDM_TYPE_INIT : Nat := 0

/-- Modelled from the spec: VDM command type ACK. -/
def VDM_TYPE_ACK : Nat := 1

/-- Modelled from the spec: VDM command type NACK. -/
def VDM_TYPE_NACK : Nat := 2

/-- Modelled from the spec: structured-VDM bit (bit 15) of a VDM header. -/
def GET_VDMHEAD_STRUCT_TYPE (x : Nat) : Nat := (x >>> 15) &&& 1

/-- Modelled from the spec: command-type field (bits 7:6) of a VDM header. -/
def GET_VDMHEAD_CMD_TYPE (x : Nat) : Nat := (x >>> 6) &&& 3

/-- Modelled from the spec: command field (bits 4:0) of a VDM header. -/
def GET_VDMHEAD_CMD (x : Nat) : Nat := x &&& 0x1f

/-- Modelled from the spec: the 9 live bits of a DP Status VDO
(bits 31:9 are reserved, per the layout comment at fusb302.c lines 82-94). -/
def GET_DP_STATUS (x : Nat) : Nat := x &&& 0x1ff

/-- Modelled from the spec: HPD-level bit of a stored DP status. -/
def GET_DP_STATUS_HPD (x : Nat) : Nat := (x >>> 7) &&& 1

/-- Modelled from the spec: supply type field (bits 31:30) of a PDO. -/
def CAP_POWER_TYPE (pdo : Nat) : Nat := (pdo >>> 30) &&& 3

/-- Modelled from the spec: voltage field (bits 19:10, 50 mV units) of a
fixed-supply PDO. -/
def CAP_FPDO_VOLTAGE (pdo : Nat) : Nat := (pdo >>> 10) &&& 0x3ff

/-- Modelled from the spec: current field (bits 9:0, 10 mA units) of a
fixed-supply PDO. -/
def CAP_FPDO_CURRENT (pdo : Nat) : Nat := pdo &&& 0x3ff

/-- Modelled from the spec: voltage field of a battery PDO. -/
def CAP_VPDO_VOLTAGE (pdo : Nat) : Nat := (pdo >>> 10) &&& 0x3ff

/-- Modelled from the spec: current field of a battery PDO. -/
def CAP_VPDO_CURRENT (pdo : Nat) : Nat := pdo &&& 0x3ff

/-- Modelled from the spec: debounce threshold; a CC-dependent commit needs
`debounce_cnt > N_DEBOUNCE_CNT`, i.e. N_DEBOUNCE_CNT+1 consecutive matching
samples.  The numeric value is not fixed by the spec; the theorems below do
not depend on it. -/
def N_DEBOUNCE_CNT : Nat := 10

/-- Modelled from the spec: bound on capability-send attempts before the
connection is declared dead (spec sections 3 and 4.3). -/
def N_CAPS_COUNT : Nat := 50

/-- Modelled from the spec: bound on hard-reset attempts per connection
(spec sections 3 and 4.3). -/
def N_HARDRESET_COUNT : Nat := 0

/-- Modelled from the spec: sentinel meaning the countdown timer is not
running (spec section 3: `T_DISABLED` sentinel). -/
def T_DISABLED : Nat := 0xffffffff

/-- Modelled from the spec: BMC transmit timeout, milliseconds. -/
def T_BMC_TIMEOUT : Nat := 5

/-- Modelled from the spec: sender-response timeout, milliseconds. -/
def T_SENDER_RESPONSE : Nat := 30

/-- Modelled from the spec: source-capability resend period, milliseconds. -/
def T_TYPEC_SEND_SOURCECAP : Nat := 150

/-- Modelled from the spec: source transition time, milliseconds. -/
def T_SRC_TRANSITION : Nat := 35

/-- Modelled from the spec: source recover time, milliseconds. -/
def T_SRC_RECOVER : Nat := 760

/-- Modelled from the spec: no-response timeout, milliseconds. -/
def T_NO_RESPONSE : Nat := 5000

/-- Modelled from the spec: new-source power-on timeout, milliseconds. -/
def T_PD_SOURCE_ON : Nat := 480

/-- Modelled from the spec: old-source power-off timeout, milliseconds. -/
def T_PD_SOURCE_OFF : Nat := 920

/-- Modelled from the spec: swap source start delay, milliseconds. -/
def T_PD_SWAP_SOURCE_START : Nat := 20

/-- Modelled from the spec: VCONN source on timeout, milliseconds. -/
def T_PD_VCONN_SRC_ON : Nat := 100

/-- Modelled from the spec: sink wait-for-capabilities timeout,
milliseconds. -/
def T_TYPEC_SINK_WAIT_CAP : Nat := 500

/-- Modelled from the spec: power-supply transition timeout, milliseconds. -/
def T_PS_TRANSITION : Nat := 500

/-- Modelled from the spec: maximum hard-reset signalling time,
milliseconds. -/
def T_PS_HARD_RESET_MAX : Nat := 35

/-- Modelled from the spec: VBUS safe-0V window, milliseconds. -/
def T_SAFE_0V : Nat := 650

/-- Modelled from the spec: maximum source recover time, milliseconds. -/
def T_SRC_RECOVER_MAX : Nat := 1000

/-- Modelled from the spec: source turn-on time, milliseconds. -/
def T_SRC_TURN_ON : Nat := 275

/-- Modelled from the spec: DRP try-role window, milliseconds. -/
def T_PD_TRY_DRP : Nat := 75

/-- Modelled from the spec: transmit state idle (`tx_state` enumeration;
the code switches on literal 0 for idle). -/
def tx_idle : Nat := 0

/-- Modelled from the spec: transmit state busy. -/
def tx_busy : Nat := 1

/-- Modelled from the spec: transmit state failed. -/
def tx_failed : Nat := 2

/-- Modelled from the spec: transmit state success. -/
def tx_success : Nat := 3

/-- Modelled from the spec: Auto-VDM engine state Discover Identity
(the engine advances by incrementing `vdm_state`). -/
def VDM_STATE_DISCOVERY_ID : Nat := 0

/-- Modelled from the spec: Auto-VDM state Discover SVIDs. -/
def VDM_STATE_DISCOVERY_SVID : Nat := 1

/-- Modelled from the spec: Auto-VDM state Discover Modes. -/
def VDM_STATE_DISCOVERY_MODES : Nat := 2

/-- Modelled from the spec: Auto-VDM state Enter Mode. -/
def VDM_STATE_ENTER_MODE : Nat := 3

/-- Modelled from the spec: Auto-VDM state Status Update. -/
def VDM_STATE_UPDATE_STATUS : Nat := 4

/-- Modelled from the spec: Auto-VDM state DP Configure. -/
def VDM_STATE_DP_CONFIG : Nat := 5

/-- Modelled from the spec: Auto-VDM state Notify. -/
def VDM_STATE_NOTIFY : Nat := 6

/-- Modelled from the spec: Auto-VDM state Ready (idle, engine parked). -/
def VDM_STATE_READY : Nat := 7

/-- Modelled from the spec: Auto-VDM terminal error state; it must compare
at or above `VDM_STATE_READY` so that the engine counts as inactive. -/
def VDM_STATE_ERR : Nat := 0xff

/-- Modelled from the spec: power role sink. -/
def POWER_ROLE_SINK : Nat := 0

/-- Modelled from the spec: power role source. -/
def POWER_ROLE_SOURCE : Nat := 1

/-- Modelled from the spec: data role UFP. -/
def DATA_ROLE_UFP : Nat := 0

/-- Modelled from the spec: data role DFP. -/
def DATA_ROLE_DFP : Nat := 1

/-- Modelled from the spec: CC polarity CC1 (linux `typec_cc_polarity`). -/
def TYPEC_POLARITY_CC1 : Nat := 0

/-- Modelled from the spec: CC polarity CC2. -/
def TYPEC_POLARITY_CC2 : Nat := 1

/-- Modelled from the spec: orientation none. -/
def TYPEC_ORIENTATION_NONE : Nat := 0

/-- Modelled from the spec: orientation CC1. -/
def TYPEC_ORIENTATION_CC1 : Nat := 1

/-- Modelled from the spec: orientation CC2. -/
def TYPEC_ORIENTATION_CC2 : Nat := 2

/-- Modelled from the spec: role mode none. -/
def ROLE_MODE_NONE : Nat := 0

/-- Modelled from the spec: role mode UFP. -/
def ROLE_MODE_UFP : Nat := 1

/-- Modelled from the spec: role mode DFP. -/
def ROLE_MODE_DFP : Nat := 2

/-- Modelled from the spec: role mode dual-role. -/
def ROLE_MODE_DRP : Nat := 3

/-- Modelled from the spec: role mode audio accessory. -/
def ROLE_MODE_ASS : Nat := 4

/-- Modelled from the spec: toggle-state bit, active CC1. -/
def CC_STATE_TOGSS_CC1 : Nat := 1

/-- Modelled from the spec: toggle-state bit, active CC2. -/
def CC_STATE_TOGSS_CC2 : Nat := 2

/-- Modelled from the spec: toggle-state role tag UFP. -/
def CC_STATE_TOGSS_IS_UFP : Nat := 4

/-- Modelled from the spec: toggle-state role tag DFP. -/
def CC_STATE_TOGSS_IS_DFP : Nat := 8

/-- Modelled from the spec: toggle-state role tag audio accessory. -/
def CC_STATE_TOGSS_IS_ACC : Nat := 16

/-- Modelled from the spec: mask of the toggle-state role tags. -/
def CC_STATE_TOGSS_ROLE : Nat :=
  CC_STATE_TOGSS_IS_UFP ||| CC_STATE_TOGSS_IS_DFP ||| CC_STATE_TOGSS_IS_ACC

/-- Modelled from the spec: host-current selector for USB-default Rp. -/
def TYPEC_RP_USB : Nat := 0

/-- Modelled from the spec: host-current selector for 1.5 A Rp. -/
def TYPEC_RP_1A5 : Nat := 1

/-- Modelled from the spec: host-current selector for 3.0 A Rp. -/
def TYPEC_RP_3A0 : Nat := 2

/-- Modelled from the spec: `u32` wrap-around modulus for `msg_id`. -/
def U32_MOD : Nat := 4294967296

/-! ## Data model -/

/-- Top-level connection states of the machine (spec section 4.3; the
`connection_state` enumeration lives in the absent header, with the
constructor set read off the dispatch switch in `state_machine_typec`).
`disabled` is the first variant, matching the code's `if (!state)` check. -/
inductive ConnState where
  | disabled
  | error_recovery
  | unattached
  | attach_wait_sink
  | attach_wait_source
  | attach_wait_audio_acc
  | attach_try_src
  | attach_try_snk
  | attached_source
  | attached_sink
  | attached_audio_acc
  | policy_src_startup
  | policy_src_discovery
  | policy_src_send_caps
  | policy_src_negotiate_cap
  | policy_src_transition_supply
  | policy_src_cap_response
  | policy_src_transition_default
  | policy_src_ready
  | policy_src_get_sink_caps
  | policy_src_send_hardrst
  | policy_src_send_softrst
  | policy_src_softrst
  | policy_snk_startup
  | policy_snk_discovery
  | policy_snk_wait_caps
  | policy_snk_evaluate_caps
  | policy_snk_select_cap
  | policy_snk_transition_sink
  | policy_snk_transition_default
  | policy_snk_ready
  | policy_snk_send_hardrst
  | policy_snk_send_softrst
  | policy_snk_softrst
  | policy_src_prs_evaluate
  | policy_snk_prs_evaluate
  | policy_snk_prs_accept
  | policy_src_prs_accept
  | policy_snk_prs_reject
  | policy_src_prs_reject
  | policy_vcs_ufp_reject
  | policy_drs_dfp_reject
  | policy_drs_ufp_reject
  | policy_src_prs_transition_to_off
  | policy_src_prs_assert_rd
  | policy_src_prs_source_off
  | policy_snk_prs_send_swap
  | policy_src_prs_send_swap
  | policy_snk_prs_transition_to_off
  | policy_snk_prs_assert_rp
  | policy_snk_prs_source_on
  | policy_vcs_ufp_evaluate_swap
  | policy_vcs_ufp_accept
  | policy_vcs_ufp_wait_for_dfp_vconn
  | policy_vcs_dfp_wait_for_ufp_vconn
  | policy_vcs_ufp_turn_off_vconn
  | policy_vcs_dfp_turn_off_vconn
  | policy_vcs_ufp_turn_on_vconn
  | policy_vcs_dfp_turn_on_vconn
  | policy_vcs_ufp_send_ps_rdy
  | policy_vcs_dfp_send_ps_rdy
  | policy_vcs_dfp_send_swap
  | policy_drs_ufp_evaluate
  | policy_drs_dfp_evaluate
  | policy_drs_dfp_accept
  | policy_drs_ufp_accept
  | policy_drs_dfp_change
  | policy_drs_ufp_change
  | policy_drs_ufp_send_swap
  | policy_drs_dfp_send_swap
deriving DecidableEq, Repr

/-- Outward notification snapshot (`struct notify_info`), spec section 3:
orientation, power/data role, connection flags, DP data; compared
bit-exactly against a shadow copy before publishing. -/
structure NotifyInfo where
  orientation : Nat
  power_role : Nat
  data_role : Nat
  is_cc_connected : Bool
  is_pd_connected : Bool
  is_enter_mode : Bool
  pin_assignment_support : Nat
  pin_assignment_def : Nat
  attention : Bool
  dp_status : Nat
  dp_caps : Nat
deriving DecidableEq, Repr

/-- All-zero notification snapshot, the result of the code's `memset`. -/
def NotifyInfo.zero : NotifyInfo :=
  { orientation := 0, power_role := 0, data_role := 0,
    is_cc_connected := false, is_pd_connected := false,
    is_enter_mode := false, pin_assignment_support := 0,
    pin_assignment_def := 0, attention := false, dp_status := 0,
    dp_caps := 0 }

/-- Static source-capability configuration (`struct PD_CAP_INFO`). -/
structure PdCapInfo where
  supply_type : Nat
  dual_role_power : Nat
  usb_suspend_support : Nat
  externally_powered : Nat
  usb_communications_cap : Nat
  data_role_swap : Nat
  peak_current : Nat
deriving DecidableEq, Repr

/-- Protocol-relevant mutable state of `struct fusb30x_chip` (spec
section 3, Port Context).  Register caches and platform handles are
omitted; `alert_retry` models the function-static `retry` flag inside
`tcpc_alert`. -/
structure Chip where
  role : Nat
  try_role : Nat
  try_role_complete : Bool
  conn_state : ConnState
  sub_state : Nat
  val_tmp : Nat
  work_continue : Nat
  cc_state : Nat
  cc1 : Nat
  cc2 : Nat
  cc_polarity : Nat
  debounce_cnt : Nat
  msg_id : Nat
  rec_head : Nat
  rec_load : List Nat
  send_head : Nat
  send_load : List Nat
  tx_state : Nat
  timer_state : Nat
  timer_mux : Nat
  hardrst_count : Nat
  caps_counter : Nat
  n_caps_used : Nat
  source_power_supply : List Nat
  source_max_current : List Nat
  pd_cap_info : PdCapInfo
  is_pd_support : Bool
  vbus_begin : Bool
  vconn_enabled : Bool
  vconn_supported : Bool
  vdm_state : Nat
  vdm_substate : Nat
  vdm_send_state : Nat
  vdm_id : Nat
  vdm_svid : List Nat
  vdm_svid_num : Nat
  partner_cap : List Nat
  pos_power : Nat
  pd_output_vol : Nat
  pd_output_cur : Nat
  notify : NotifyInfo
  notify_cmp : NotifyInfo
  alert_retry : Bool
  cc_meas_high : Nat
  cc_meas_low : Nat
deriving DecidableEq, Repr

/-- Role tag of the latched toggle state, fusb302.c line 99. -/
def CC_STATE_ROLE (chip : Chip) : Nat := chip.cc_state &&& CC_STATE_TOGSS_ROLE

/-- One PD frame as delivered by the receive FIFO: 16-bit header plus data
objects. -/
structure PdFrame where
  head : Nat
  load : List Nat
deriving DecidableEq, Repr

/-- Environment oracle for one state-machine tick: the results the register
transport and platform collaborators would return (spec sections 1 and 6
place these outside the core).  `cc_pull_up1/2` and `cc_pull_down1/2` are
the comparator classifications `tcpm_get_cc_pull_up`/`_pull_down` would
measure on each line; `fifo` is the receive-FIFO content; `charge_dev` is
the optional charger-IC (max_vol, max_cur) limit pair. -/
structure Env where
  vbus : Bool
  cc_pull_up1 : Nat
  cc_pull_up2 : Nat
  cc_pull_down1 : Nat
  cc_pull_down2 : Nat
  fifo : List PdFrame
  charge_dev : Option (Nat × Nat)
deriving Repr

/-- Hardware interrupt snapshot read at the head of a tick by `tcpc_alert`:
which interrupt bits are pending and the associated status reads. -/
structure HwEvents where
  comp_chng : Bool
  comp_val : Bool
  vbusok : Bool
  togdone : Bool
  togss : Nat
  txsent : Bool
  gcrcsent : Bool
  hardrst : Bool
  retryfail : Bool
  hardsent : Bool
deriving Repr

/-- Quiet hardware: no interrupt pending. -/
def HwEvents.silent : HwEvents :=
  { comp_chng := false, comp_val := false, vbusok := false, togdone := false,
    togss := 0, txsent := false, gcrcsent := false, hardrst := false,
    retryfail := false, hardsent := false }

/-! ## Core operations (fusb302.c) -/

/-- State transition helper, fusb302.c lines 379-388: store the new state,
re-zero the `sub_state` and `val_tmp` scratch registers and request a
work continuation. -/
def set_state (chip : Chip) (state : ConnState) : Chip :=
  { chip with conn_state := state, sub_state := 0, val_tmp := 0,
              work_continue := chip.work_continue ||| EVENT_WORK_CONTINUE }

/-- Receive-FIFO decode, fusb302.c lines 390-407: read frames from the
FIFO, discarding GoodCRC control messages, until a non-GoodCRC frame is
found.  The C do-while would keep re-reading an exhausted FIFO; that case
is modelled as `none`. -/
def tcpm_get_message : List PdFrame → Option PdFrame
  | [] => none
  | f :: rest =>
    if PACKET_IS_CONTROL_MSG f.head CMT_GOODCRC then tcpm_get_message rest
    else some f

/-- Pull-up CC measurement, fusb302.c lines 414-473; the comparator result
is supplied by the environment oracle. -/
def tcpm_get_cc_pull_up (env : Env) (cc : Nat) : Nat :=
  if cc = TYPEC_ORIENTATION_NONE then 0
  else if cc = TYPEC_ORIENTATION_CC1 then env.cc_pull_up1
  else env.cc_pull_up2

/-- Pull-down CC measurement, fusb302.c lines 475-497; the comparator
result is supplied by the environment oracle. -/
def tcpm_get_cc_pull_down (env : Env) (cc : Nat) : Nat :=
  if cc = TYPEC_ORIENTATION_NONE then 0
  else if cc = TYPEC_ORIENTATION_CC1 then env.cc_pull_down1
  else env.cc_pull_down2

/-- CC pair sampling, fusb302.c lines 499-518: dispatch on the latched
toggle role; in DFP mode only the latched active line is measured and the
other reads OPEN. -/
def tcpm_get_cc (chip : Chip) (env : Env) : Nat × Nat :=
  if CC_STATE_ROLE chip = CC_STATE_TOGSS_IS_UFP then
    (tcpm_get_cc_pull_down env TYPEC_ORIENTATION_CC1,
     tcpm_get_cc_pull_down env TYPEC_ORIENTATION_CC2)
  else if CC_STATE_ROLE chip = CC_STATE_TOGSS_IS_DFP then
    if chip.cc_state &&& CC_STATE_TOGSS_CC1 ≠ 0 then
      (tcpm_get_cc_pull_up env TYPEC_ORIENTATION_CC1, TYPEC_CC_VOLT_OPEN)
    else
      (TYPEC_CC_VOLT_OPEN, tcpm_get_cc_pull_up env TYPEC_ORIENTATION_CC2)
  else
    (tcpm_get_cc_pull_up env TYPEC_ORIENTATION_CC1,
     tcpm_get_cc_pull_up env TYPEC_ORIENTATION_CC2)

/-- Polarity selection, fusb302.c lines 622-664; only the latched
`cc_polarity` field is modelled state (the switch writes are register
transport). -/
def tcpm_set_polarity (chip : Chip) (polarity : Nat) : Chip :=
  { chip with cc_polarity := polarity }

/-- VCONN switch, fusb302.c lines 666-681. -/
def tcpm_set_vconn (chip : Chip) (enable : Nat) : Chip :=
  { chip with vconn_enabled := enable ≠ 0 }

/-- Rp current selection, fusb302.c lines 689-732: latch the comparator
thresholds for the chosen host current. -/
def tcpm_select_rp_value (chip : Chip) (rp : Nat) : Chip :=
  if rp = TYPEC_RP_USB then
    { chip with cc_meas_high := 0x26, cc_meas_low := 0x5 }
  else if rp = TYPEC_RP_3A0 then
    { chip with cc_meas_high := 0x3e, cc_meas_low := 0x13 }
  else
    { chip with cc_meas_high := 0x26, cc_meas_low := 0xa }

/-- VBUS check, fusb302.c lines 734-742; the level is supplied by the
environment oracle. -/
def tcpm_check_vbus (env : Env) : Bool := env.vbus

/-- Transceiver (re)initialisation, fusb302.c lines 744-785; only the
modelled chip fields are affected (the rest is register programming). -/
def tcpm_init (chip : Chip) : Chip :=
  let chip := { chip with notify := { chip.notify with is_cc_connected := false },
                          cc_state := 0 }
  let chip := tcpm_select_rp_value chip TYPEC_RP_USB
  tcpm_set_vconn chip 0

/-- Hard-reset execution, fusb302.c lines 787-795. -/
def pd_execute_hard_reset (chip : Chip) : Chip :=
  let chip := { chip with msg_id := 0, vdm_state := VDM_STATE_DISCOVERY_ID }
  if chip.notify.power_role ≠ 0 then
    set_state chip ConnState.policy_src_transition_default
  else
    set_state chip ConnState.policy_snk_transition_default

/-- Toggle-result classification, fusb302.c lines 797-809. -/
def set_cc_state (reg : Nat) : Nat :=
  let reg := reg >>> 3
  if reg &&& CC_STATE_TOGSS_IS_UFP ≠ 0 then
    if reg &&& 0x03 = 0x03 then CC_STATE_TOGSS_IS_ACC ||| 0x03
    else CC_STATE_TOGSS_IS_UFP ||| (reg &&& 0x03)
  else
    CC_STATE_TOGSS_IS_DFP ||| (reg &&& 0x03)

/-- Snapshot computed by `platform_fusb_notify` before the shadow compare,
fusb302.c lines 271-274: while CC is connected the orientation field is
refreshed from the latched polarity. -/
def computed_snapshot (chip : Chip) : NotifyInfo :=
  if chip.notify.is_cc_connected then
    { chip.notify with orientation :=
        if chip.cc_polarity = TYPEC_POLARITY_CC1 then TYPEC_ORIENTATION_CC1
        else TYPEC_ORIENTATION_CC2 }
  else chip.notify

/-- Notification publish, fusb302.c lines 265-338: refresh the
orientation, compare the snapshot bit-exactly against the shadow copy
`notify_cmp`, and only on a difference clear the one-shot `attention`
flag, update the shadow and push the state to the external observer.  The
returned flag records whether the observer was notified. -/
def platform_fusb_notify (chip : Chip) : Chip × Bool :=
  let n := computed_snapshot chip
  if n ≠ chip.notify_cmp then
    let n := { n with attention := false }
    ({ chip with notify := n, notify_cmp := n }, true)
  else
    ({ chip with notify := n }, false)

/-- Return to full re-detection, fusb302.c lines 899-927: re-init the
transceiver, enter `unattached`, clear the notification snapshot and
publish the disconnect. -/
def set_state_unattached (chip : Chip) : Chip :=
  let chip := tcpm_init chip
  let chip := set_state chip ConnState.unattached
  let chip := { chip with notify := NotifyInfo.zero }
  let chip := (platform_fusb_notify chip).1
  { chip with try_role_complete := false }

/-- Message staging, fusb302.c lines 929-991: pack the PD header from
`msg_id`, the roles and the command, and stage the data objects for
Source_Capabilities and Request frames.  (For the Request frame the C
masks the shifted voltage field with 0x3ff after the shift, exactly as
transcribed.) -/
def set_mesg (chip : Chip) (cmd is_DMT : Nat) : Chip :=
  let base := ((chip.msg_id &&& 0x7) <<< 9) |||
              ((chip.notify.power_role &&& 0x1) <<< 8) |||
              (1 <<< 6) |||
              ((chip.notify.data_role &&& 0x1) <<< 5)
  if is_DMT ≠ 0 then
    if cmd = DMT_SOURCECAPABILITIES then
      let head := base ||| ((chip.n_caps_used &&& 0x3) <<< 12) ||| (cmd &&& 0xf)
      let load := (List.range chip.n_caps_used).map (fun i =>
        (chip.pd_cap_info.supply_type <<< 30) |||
        (chip.pd_cap_info.dual_role_power <<< 29) |||
        (chip.pd_cap_info.usb_suspend_support <<< 28) |||
        (chip.pd_cap_info.externally_powered <<< 27) |||
        (chip.pd_cap_info.usb_communications_cap <<< 26) |||
        (chip.pd_cap_info.data_role_swap <<< 25) |||
        (chip.pd_cap_info.peak_current <<< 20) |||
        ((chip.source_power_supply.getD i 0) <<< 10) |||
        (chip.source_max_current.getD i 0))
      { chip with send_head := head, send_load := load }
    else if cmd = DMT_REQUEST then
      let head := base ||| (1 <<< 12) ||| (cmd &&& 0xf)
      let rdo := (chip.pos_power <<< 28) ||| (1 <<< 26)
      let pdo := chip.rec_load.getD (chip.pos_power - 1) 0
      let rdo :=
        if CAP_POWER_TYPE pdo = 0 then
          rdo ||| ((CAP_FPDO_VOLTAGE pdo <<< 10) &&& 0x3ff) |||
                  (CAP_FPDO_CURRENT pdo &&& 0x3ff)
        else if CAP_POWER_TYPE pdo = 1 then
          rdo ||| ((CAP_VPDO_VOLTAGE pdo <<< 10) &&& 0x3ff) |||
                  (CAP_VPDO_CURRENT pdo &&& 0x3ff)
        else rdo
      { chip with send_head := head, send_load := [rdo] }
    else
      { chip with send_head := base }
  else
    { chip with send_head := base ||| (cmd &&& 0xf) }

/-- Highest set bit of a 32-bit value: the C computes
`1 << (31 - __builtin_clz(x))` (fusb302.c line 1039); written as a
structural scan so it evaluates by kernel reduction. -/
def highestBit (x : Nat) : Nat :=
  (List.range 32).foldl (fun acc i => if Nat.testBit x i then 1 <<< i else acc) 0

/-- DisplayPort pin-assignment selection, fusb302.c lines 1012-1040:
extract the pin capability field, mask multi-function configs unless the
UFP prefers multi-function, mask the signaling generation not in use,
prefer C/D over E/F, and return the highest remaining bit (0 when none
remain). -/
def pd_dfp_dp_get_pin_assignment (caps status : Nat) : Nat :=
  let pin_caps := PD_DP_PIN_CAPS caps
  let pin_caps :=
    if PD_VDO_DPSTS_MF_PREF status = 0 then
      pin_caps &&& (0xffffffff ^^^ MODE_DP_PIN_MF_MASK)
    else pin_caps
  let pin_caps :=
    if PD_DP_SIGNAL_GEN2 caps ≠ 0 then
      pin_caps &&& (0xffffffff ^^^ MODE_DP_PIN_DP_MASK)
    else
      pin_caps &&& (0xffffffff ^^^ MODE_DP_PIN_BR2_MASK)
  let pin_caps :=
    if pin_caps &&& (MODE_DP_PIN_C ||| MODE_DP_PIN_D) ≠ 0 then
      pin_caps &&& (0xffffffff ^^^ (MODE_DP_PIN_E ||| MODE_DP_PIN_F))
    else pin_caps
  if pin_caps = 0 then 0
  else highestBit pin_caps

/-- VDM message staging, fusb302.c lines 1042-1099. -/
def set_vdm_mesg (chip : Chip) (cmd ty mode : Nat) : Chip :=
  let head := ((chip.msg_id &&& 0x7) <<< 9) |||
              ((chip.notify.power_role &&& 0x1) <<< 8) |||
              (1 <<< 6) |||
              ((chip.notify.data_role &&& 0x1) <<< 5) |||
              (DMT_VENDERDEFINED &&& 0xf)
  let vdo := (1 <<< 15) ||| (ty <<< 6) ||| cmd
  if cmd = VDM_DISCOVERY_ID ∨ cmd = VDM_DISCOVERY_SVIDS ∨ cmd = VDM_ATTENTION then
    { chip with send_head := head ||| (1 <<< 12),
                send_load := [vdo ||| (0xff00 <<< 16)] }
  else if cmd = VDM_DISCOVERY_MODES then
    { chip with send_head := head ||| (1 <<< 12),
                send_load := [vdo ||| ((chip.vdm_svid.getD (chip.val_tmp >>> 1) 0) <<< 16)] }
  else if cmd = VDM_ENTER_MODE then
    { chip with send_head := head ||| (1 <<< 12),
                send_load := [vdo ||| (mode <<< 8) ||| (0xff01 <<< 16)] }
  else if cmd = VDM_EXIT_MODE then
    { chip with send_head := head ||| (1 <<< 12),
                send_load := [vdo ||| (0x0f <<< 8) ||| (0xff01 <<< 16)] }
  else if cmd = VDM_DP_STATUS_UPDATE then
    { chip with send_head := head ||| (2 <<< 12),
                send_load := [vdo ||| (1 <<< 8) ||| (0xff01 <<< 16), 5] }
  else if cmd = VDM_DP_CONFIG then
    let pin := pd_dfp_dp_get_pin_assignment chip.notify.dp_caps chip.notify.dp_status
    { chip with send_head := head ||| (2 <<< 12),
                notify := { chip.notify with pin_assignment_def := pin },
                send_load := [vdo ||| (1 <<< 8) ||| (0xff01 <<< 16),
                              (pin <<< 8) ||| (1 <<< 2) ||| 2] }
  else
    { chip with send_head := head, send_load := [vdo] }

/-- Hard-reset transmission, fusb302.c lines 1101-1119: kick the hardware
hard-reset generator, then report success once the BMC timeout expires.
Returns the updated chip and the `tx_state` result the caller switches
on. -/
def policy_send_hardrst (chip : Chip) (evt : Nat) : Chip × Nat :=
  if chip.tx_state = 0 then
    let chip := { chip with tx_state := tx_busy, timer_state := T_BMC_TIMEOUT }
    (chip, chip.tx_state)
  else if evt &&& EVENT_TIMER_STATE ≠ 0 then
    ({ chip with tx_state := tx_success }, tx_success)
  else
    (chip, chip.tx_state)

/-- Frame transmission start, fusb302.c lines 1121-1158: from idle, write
the framed message into the transmit FIFO (a register-transport effect)
and go busy; otherwise keep waiting for the hardware result.  Returns the
chip and the `tx_state` the caller switches on. -/
def policy_send_data (chip : Chip) : Chip × Nat :=
  if chip.tx_state = 0 then
    let chip := { chip with tx_state := tx_busy }
    (chip, chip.tx_state)
  else
    (chip, chip.tx_state)

/-- Candidate test of the position-power scan, fusb302.c lines 174-206. -/
def pos_power_candidate (pdo max_vol max_cur : Nat) : Bool :=
  if CAP_POWER_TYPE pdo = 0 then
    decide (CAP_FPDO_VOLTAGE pdo * 50 ≤ max_vol ∧ CAP_FPDO_CURRENT pdo * 10 ≤ max_cur)
  else if CAP_POWER_TYPE pdo = 1 then
    decide (CAP_VPDO_VOLTAGE pdo * 50 ≤ max_vol ∧ CAP_VPDO_CURRENT pdo * 10 ≤ max_cur)
  else false

/-- Position-power selection, fusb302.c lines 165-210: scan the received
capabilities from the highest index down and latch the first one within
the charger limits (the C loop breaks at the first hit). -/
def fusb_set_pos_power (chip : Chip) (max_vol max_cur : Nat) : Chip :=
  match (List.range (PD_HEADER_CNT chip.rec_head)).reverse.find?
          (fun i => pos_power_candidate (chip.rec_load.getD i 0) max_vol max_cur) with
  | some i =>
    let pdo := chip.rec_load.getD i 0
    if CAP_POWER_TYPE pdo = 1 then
      { chip with pos_power := i + 1,
                  pd_output_vol := CAP_VPDO_VOLTAGE pdo * 50,
                  pd_output_cur := CAP_VPDO_CURRENT pdo * 10 }
    else
      { chip with pos_power := i + 1,
                  pd_output_vol := CAP_FPDO_VOLTAGE pdo * 50,
                  pd_output_cur := CAP_FPDO_CURRENT pdo * 10 }
  | none => chip

/-- Charger-IC position-power refinement, fusb302.c lines 212-237: when a
charger device is present and reports positive limits, re-run the
position-power scan with them. -/
def fusb302_set_pos_power_by_charge_ic (chip : Chip) (env : Env) : Chip :=
  match env.charge_dev with
  | none => chip
  | some (max_vol, max_cur) =>
    if 0 < max_vol ∧ 0 < max_cur then fusb_set_pos_power chip max_vol max_cur
    else chip

/-! ## Auto-VDM engine (fusb302.c lines 1160-1566) -/

/-- Result codes of the `vdm_send_*` helpers: 0, -EPIPE, -ETIMEDOUT and
-EINPROGRESS in the C. -/
inductive VdmRet where
  | ok
  | epipe
  | etimedout
  | einprogress
deriving DecidableEq, Repr

/-- SVID-pair accumulation loop of `process_vdm_msg`, fusb302.c lines
1193-1210: up to six response objects are scanned, two SVIDs per object,
stopping at the first zero half. -/
def vdm_svid_scan (chip : Chip) (i fuel : Nat) : Chip :=
  match fuel with
  | 0 => chip
  | fuel + 1 =>
    let hi := (chip.rec_load.getD (i + 1) 0 >>> 16) &&& 0xffff
    if hi ≠ 0 then
      let chip := { chip with vdm_svid := chip.vdm_svid.set (i * 2) hi,
                              vdm_svid_num := chip.vdm_svid_num + 1 }
      let lo := chip.rec_load.getD (i + 1) 0 &&& 0xffff
      if lo ≠ 0 then
        vdm_svid_scan
          { chip with vdm_svid := chip.vdm_svid.set (i * 2 + 1) lo,
                      vdm_svid_num := chip.vdm_svid_num + 1 }
          (i + 1) fuel
      else chip
    else chip

/-- Received-VDM processing, fusb302.c lines 1160-1263: Attention updates
the DP status and re-publishes; ACKs record each discovery step's result;
a NACK sends the Auto-VDM engine to its terminal error state. -/
def process_vdm_msg (chip : Chip) : Chip :=
  let vdm_header := chip.rec_load.getD 0 0
  if GET_VDMHEAD_STRUCT_TYPE vdm_header = 0 then chip
  else if GET_VDMHEAD_CMD_TYPE vdm_header = VDM_TYPE_INIT then
    if GET_VDMHEAD_CMD vdm_header = VDM_ATTENTION then
      let chip := { chip with notify :=
        { chip.notify with dp_status := GET_DP_STATUS (chip.rec_load.getD 1 0),
                           attention := true } }
      (platform_fusb_notify chip).1
    else chip
  else if GET_VDMHEAD_CMD_TYPE vdm_header = VDM_TYPE_ACK then
    let cmd := GET_VDMHEAD_CMD vdm_header
    if cmd = VDM_DISCOVERY_ID then
      { chip with vdm_id := chip.rec_load.getD 1 0 }
    else if cmd = VDM_DISCOVERY_SVIDS then
      vdm_svid_scan chip 0 6
    else if cmd = VDM_DISCOVERY_MODES then
      if PD_HEADER_CNT chip.rec_head > 1 then
        let tmp := chip.rec_load.getD 1 0
        if (tmp >>> 8) &&& 0x3f = 0 ∧ (tmp >>> 16) &&& 0x3f = 0 then
          { chip with val_tmp := chip.val_tmp ||| 1 }
        else
          let n := { chip.notify with dp_caps := tmp, pin_assignment_def := 0, pin_assignment_support := PD_DP_PIN_CAPS tmp }
          { chip with notify := n, val_tmp := chip.val_tmp ||| 1 }
      else chip
    else if cmd = VDM_ENTER_MODE then
      { chip with val_tmp := 1 }
    else if cmd = VDM_DP_STATUS_UPDATE then
      let n := { chip.notify with dp_status := GET_DP_STATUS (chip.rec_load.getD 1 0) }
      { chip with notify := n, val_tmp := 1 }
    else if cmd = VDM_DP_CONFIG then
      { chip with val_tmp := 1,
                  notify := { chip.notify with is_enter_mode := true } }
    else chip
  else if GET_VDMHEAD_CMD_TYPE vdm_header = VDM_TYPE_NACK then
    { chip with vdm_state := VDM_STATE_ERR }
  else chip

/-- Waiting tail of `vdm_send_discoveryid` (the default case of its
switch), fusb302.c lines 1291-1301. -/
def vdm_send_discoveryid_tail (chip : Chip) (evt : Nat) : Chip × VdmRet :=
  if chip.vdm_id ≠ 0 then
    ({ chip with vdm_send_state := 0 }, VdmRet.ok)
  else if evt &&& EVENT_TIMER_STATE ≠ 0 then
    ({ chip with vdm_state := VDM_STATE_ERR,
                 work_continue := chip.work_continue ||| EVENT_WORK_CONTINUE },
     VdmRet.etimedout)
  else (chip, VdmRet.einprogress)

/-- Discover-Identity sender, fusb302.c lines 1265-1304. -/
def vdm_send_discoveryid (chip0 : Chip) (evt : Nat) : Chip × VdmRet :=
  if chip0.vdm_send_state = 0 ∨ chip0.vdm_send_state = 1 then
    let chip :=
      if chip0.vdm_send_state = 0 then
        let c := set_vdm_mesg chip0 VDM_DISCOVERY_ID VDM_TYPE_INIT 0
        { c with vdm_id := 0, tx_state := 0, vdm_send_state := c.vdm_send_state + 1 }
      else chip0
    let (chip, tmp) := policy_send_data chip
    if tmp = tx_success then
      let chip := { chip with vdm_send_state := chip.vdm_send_state + 1,
                              timer_state := T_SENDER_RESPONSE }
      if chip.vdm_send_state ≠ 2 then (chip, VdmRet.einprogress)
      else vdm_send_discoveryid_tail chip evt
    else if tmp = tx_failed then
      ({ chip with vdm_state := VDM_STATE_ERR }, VdmRet.epipe)
    else if chip.vdm_send_state ≠ 2 then (chip, VdmRet.einprogress)
    else vdm_send_discoveryid_tail chip evt
  else vdm_send_discoveryid_tail chip0 evt

/-- Waiting tail of `vdm_send_discoverysvid`, fusb302.c lines 1333-1343. -/
def vdm_send_discoverysvid_tail (chip : Chip) (evt : Nat) : Chip × VdmRet :=
  if chip.vdm_svid_num ≠ 0 then
    ({ chip with vdm_send_state := 0 }, VdmRet.ok)
  else if evt &&& EVENT_TIMER_STATE ≠ 0 then
    ({ chip with vdm_state := VDM_STATE_ERR,
                 work_continue := chip.work_continue ||| EVENT_WORK_CONTINUE },
     VdmRet.etimedout)
  else (chip, VdmRet.einprogress)

/-- Discover-SVIDs sender, fusb302.c lines 1306-1346. -/
def vdm_send_discoverysvid (chip0 : Chip) (evt : Nat) : Chip × VdmRet :=
  if chip0.vdm_send_state = 0 ∨ chip0.vdm_send_state = 1 then
    let chip :=
      if chip0.vdm_send_state = 0 then
        let c := set_vdm_mesg chip0 VDM_DISCOVERY_SVIDS VDM_TYPE_INIT 0
        { c with vdm_svid := List.replicate 12 0, vdm_svid_num := 0,
                 tx_state := 0, vdm_send_state := c.vdm_send_state + 1 }
      else chip0
    let (chip, tmp) := policy_send_data chip
    if tmp = tx_success then
      let chip := { chip with vdm_send_state := chip.vdm_send_state + 1,
                              timer_state := T_SENDER_RESPONSE }
      if chip.vdm_send_state ≠ 2 then (chip, VdmRet.einprogress)
      else vdm_send_discoverysvid_tail chip evt
    else if tmp = tx_failed then
      ({ chip with vdm_state := VDM_STATE_ERR }, VdmRet.epipe)
    else if chip.vdm_send_state ≠ 2 then (chip, VdmRet.einprogress)
    else vdm_send_discoverysvid_tail chip evt
  else vdm_send_discoverysvid_tail chip0 evt

/-- Waiting tail of `vdm_send_discoverymodes`, fusb302.c lines 1375-1388. -/
def vdm_send_discoverymodes_tail (chip : Chip) (evt : Nat) : Chip × VdmRet :=
  if chip.val_tmp &&& 1 ≠ 0 then
    ({ chip with val_tmp := (chip.val_tmp &&& 0xfe) + 2,
                 vdm_send_state := 0,
                 work_continue := chip.work_continue ||| EVENT_WORK_CONTINUE },
     VdmRet.einprogress)
  else if evt &&& EVENT_TIMER_STATE ≠ 0 then
    ({ chip with vdm_state := VDM_STATE_ERR,
                 work_continue := chip.work_continue ||| EVENT_WORK_CONTINUE },
     VdmRet.etimedout)
  else (chip, VdmRet.einprogress)

/-- Discover-Modes sender, fusb302.c lines 1348-1396: loops once per
discovered SVID (two `val_tmp` units per SVID) before reporting done. -/
def vdm_send_discoverymodes (chip0 : Chip) (evt : Nat) : Chip × VdmRet :=
  if chip0.val_tmp >>> 1 ≠ chip0.vdm_svid_num then
    if chip0.vdm_send_state = 0 ∨ chip0.vdm_send_state = 1 then
      let chip :=
        if chip0.vdm_send_state = 0 then
          let c := set_vdm_mesg chip0 VDM_DISCOVERY_MODES VDM_TYPE_INIT 0
          { c with tx_state := 0, vdm_send_state := c.vdm_send_state + 1 }
        else chip0
      let (chip, tmp) := policy_send_data chip
      if tmp = tx_success then
        let chip := { chip with vdm_send_state := chip.vdm_send_state + 1,
                                timer_state := T_SENDER_RESPONSE }
        if chip.vdm_send_state ≠ 2 then (chip, VdmRet.einprogress)
        else vdm_send_discoverymodes_tail chip evt
      else if tmp = tx_failed then
        ({ chip with vdm_state := VDM_STATE_ERR }, VdmRet.epipe)
      else if chip.vdm_send_state ≠ 2 then (chip, VdmRet.einprogress)
      else vdm_send_discoverymodes_tail chip evt
    else vdm_send_discoverymodes_tail chip0 evt
  else
    ({ chip0 with val_tmp := 0 }, VdmRet.ok)

/-- Waiting tail shared by the Enter-Mode, Status-Update and DP-Config
senders (their identical default cases). -/
def vdm_send_wait_tail (chip : Chip) (evt : Nat) : Chip × VdmRet :=
  if chip.val_tmp ≠ 0 then
    ({ chip with val_tmp := 0, vdm_send_state := 0 }, VdmRet.ok)
  else if evt &&& EVENT_TIMER_STATE ≠ 0 then
    ({ chip with vdm_state := VDM_STATE_ERR,
                 work_continue := chip.work_continue ||| EVENT_WORK_CONTINUE },
     VdmRet.etimedout)
  else (chip, VdmRet.einprogress)

/-- Enter-Mode sender, fusb302.c lines 1398-1438. -/
def vdm_send_entermode (chip0 : Chip) (evt : Nat) : Chip × VdmRet :=
  if chip0.vdm_send_state = 0 ∨ chip0.vdm_send_state = 1 then
    let chip :=
      if chip0.vdm_send_state = 0 then
        let c := set_vdm_mesg chip0 VDM_ENTER_MODE VDM_TYPE_INIT 1
        { c with tx_state := 0, vdm_send_state := c.vdm_send_state + 1,
                 notify := { c.notify with is_enter_mode := false } }
      else chip0
    let (chip, tmp) := policy_send_data chip
    if tmp = tx_success then
      let chip := { chip with vdm_send_state := chip.vdm_send_state + 1,
                              timer_state := T_SENDER_RESPONSE }
      if chip.vdm_send_state ≠ 2 then (chip, VdmRet.einprogress)
      else vdm_send_wait_tail chip evt
    else if tmp = tx_failed then
      ({ chip with vdm_state := VDM_STATE_ERR }, VdmRet.epipe)
    else if chip.vdm_send_state ≠ 2 then (chip, VdmRet.einprogress)
    else vdm_send_wait_tail chip evt
  else vdm_send_wait_tail chip0 evt

/-- DP-Status-Update sender, fusb302.c lines 1440-1480. -/
def vdm_send_getdpstatus (chip0 : Chip) (evt : Nat) : Chip × VdmRet :=
  if chip0.vdm_send_state = 0 ∨ chip0.vdm_send_state = 1 then
    let chip :=
      if chip0.vdm_send_state = 0 then
        let c := set_vdm_mesg chip0 VDM_DP_STATUS_UPDATE VDM_TYPE_INIT 1
        { c with tx_state := 0, vdm_send_state := c.vdm_send_state + 1 }
      else chip0
    let (chip, tmp) := policy_send_data chip
    if tmp = tx_success then
      let chip := { chip with vdm_send_state := chip.vdm_send_state + 1,
                              timer_state := T_SENDER_RESPONSE }
      if chip.vdm_send_state ≠ 2 then (chip, VdmRet.einprogress)
      else vdm_send_wait_tail chip evt
    else if tmp = tx_failed then
      ({ chip with vdm_state := VDM_STATE_ERR }, VdmRet.epipe)
    else if chip.vdm_send_state ≠ 2 then (chip, VdmRet.einprogress)
    else vdm_send_wait_tail chip evt
  else vdm_send_wait_tail chip0 evt

/-- DP-Config sender, fusb302.c lines 1482-1521. -/
def vdm_send_dpconfig (chip0 : Chip) (evt : Nat) : Chip × VdmRet :=
  if chip0.vdm_send_state = 0 ∨ chip0.vdm_send_state = 1 then
    let chip :=
      if chip0.vdm_send_state = 0 then
        let c := set_vdm_mesg chip0 VDM_DP_CONFIG VDM_TYPE_INIT 0
        { c with tx_state := 0, vdm_send_state := c.vdm_send_state + 1 }
      else chip0
    let (chip, tmp) := policy_send_data chip
    if tmp = tx_success then
      let chip := { chip with vdm_send_state := chip.vdm_send_state + 1,
                              timer_state := T_SENDER_RESPONSE }
      if chip.vdm_send_state ≠ 2 then (chip, VdmRet.einprogress)
      else vdm_send_wait_tail chip evt
    else if tmp = tx_failed then
      ({ chip with vdm_state := VDM_STATE_ERR }, VdmRet.epipe)
    else if chip.vdm_send_state ≠ 2 then (chip, VdmRet.einprogress)
    else vdm_send_wait_tail chip evt
  else vdm_send_wait_tail chip0 evt

/-- AUTO_VDM_HANDLE macro, fusb302.c lines 1524-1534: on success advance
the engine and request continuation; on a hard failure park it in the
error state. -/
def auto_vdm_handle (r : Chip × VdmRet) : Chip :=
  let (chip, conditions) := r
  if conditions = VdmRet.ok then
    { chip with vdm_state := chip.vdm_state + 1,
                work_continue := chip.work_continue ||| EVENT_WORK_CONTINUE }
  else if conditions ≠ VdmRet.einprogress then
    { chip with vdm_state := VDM_STATE_ERR }
  else chip

/-- Auto-VDM engine dispatcher, fusb302.c lines 1536-1566. -/
def auto_vdm_machine (chip : Chip) (evt : Nat) : Chip :=
  if chip.vdm_state = VDM_STATE_DISCOVERY_ID then
    auto_vdm_handle (vdm_send_discoveryid chip evt)
  else if chip.vdm_state = VDM_STATE_DISCOVERY_SVID then
    auto_vdm_handle (vdm_send_discoverysvid chip evt)
  else if chip.vdm_state = VDM_STATE_DISCOVERY_MODES then
    auto_vdm_handle (vdm_send_discoverymodes chip evt)
  else if chip.vdm_state = VDM_STATE_ENTER_MODE then
    auto_vdm_handle (vdm_send_entermode chip evt)
  else if chip.vdm_state = VDM_STATE_UPDATE_STATUS then
    auto_vdm_handle (vdm_send_getdpstatus chip evt)
  else if chip.vdm_state = VDM_STATE_DP_CONFIG then
    auto_vdm_handle (vdm_send_dpconfig chip evt)
  else if chip.vdm_state = VDM_STATE_NOTIFY then
    let chip := (platform_fusb_notify chip).1
    { chip with vdm_state := VDM_STATE_READY }
  else chip

/-! ## Connection state handlers (fusb302.c lines 1568-2965) -/

/-- Disabled state, fusb302.c lines 1568-1571: do nothing. -/
def fusb_state_disabled (chip : Chip) (_evt : Nat) : Chip := chip

/-- Unattached state, fusb302.c lines 1573-1596: on a toggle-latched CC
event, classify the partner role, latch polarity, take the first CC
sample and start the 2 ms debounce poll. -/
def fusb_state_unattached (chip : Chip) (evt : Nat) (env : Env) : Chip :=
  let chip := { chip with notify := { chip.notify with is_cc_connected := false },
                          is_pd_support := false }
  if evt &&& EVENT_CC ≠ 0 ∧ chip.cc_state ≠ 0 then
    let chip :=
      if CC_STATE_ROLE chip = CC_STATE_TOGSS_IS_UFP then
        set_state chip ConnState.attach_wait_sink
      else if CC_STATE_ROLE chip = CC_STATE_TOGSS_IS_DFP then
        set_state chip ConnState.attach_wait_source
      else
        set_state chip ConnState.attach_wait_audio_acc
    let chip := { chip with vbus_begin := tcpm_check_vbus env }
    let chip := tcpm_set_polarity chip
      (if chip.cc_state &&& CC_STATE_TOGSS_CC1 ≠ 0 then TYPEC_POLARITY_CC1
       else TYPEC_POLARITY_CC2)
    let s := tcpm_get_cc chip env
    { chip with cc1 := s.1, cc2 := s.2, debounce_cnt := 0, timer_mux := 2 }
  else chip

/-- Try-role restart, fusb302.c lines 1598-1612. -/
def fusb_state_try_attach_set (chip : Chip) (mode : Nat) : Chip :=
  if mode = ROLE_MODE_NONE ∨ mode = ROLE_MODE_DRP ∨ mode = ROLE_MODE_ASS then chip
  else
    let chip := tcpm_init chip
    let chip := { chip with timer_mux := T_PD_TRY_DRP }
    set_state chip
      (if mode = ROLE_MODE_DFP then ConnState.attach_try_src
       else ConnState.attach_try_snk)

/-- Attach-wait sink, fusb302.c lines 1614-1665: VBUS fast paths, then
the CC debounce: a matching sample bumps `debounce_cnt`, a differing one
stores the new pair and resets the counter to 0; only past
`N_DEBOUNCE_CNT` is the classification committed. -/
def fusb_state_attach_wait_sink (chip : Chip) (evt : Nat) (env : Env) : Chip :=
  if evt &&& EVENT_TIMER_MUX ≠ 0 then
    if tcpm_check_vbus env ∧ chip.role = ROLE_MODE_DRP ∧
       chip.try_role = ROLE_MODE_DFP ∧ ¬chip.try_role_complete then
      fusb_state_try_attach_set { chip with timer_mux := T_DISABLED } ROLE_MODE_DFP
    else if tcpm_check_vbus env ∧ chip.try_role_complete then
      set_state { chip with timer_mux := T_PD_SOURCE_ON } ConnState.attached_sink
    else
      let chip := if tcpm_check_vbus env then { chip with timer_mux := T_DISABLED }
                  else chip
      let s := tcpm_get_cc chip env
      let chip :=
        if chip.cc1 = s.1 ∧ chip.cc2 = s.2 then
          { chip with debounce_cnt := chip.debounce_cnt + 1 }
        else
          { chip with cc1 := s.1, cc2 := s.2, debounce_cnt := 0 }
      if chip.debounce_cnt > N_DEBOUNCE_CNT then
        let chip := { chip with timer_mux := T_DISABLED }
        if (chip.cc1 = TYPEC_CC_VOLT_RP ∧ chip.cc2 = TYPEC_CC_VOLT_OPEN) ∨
           (chip.cc2 = TYPEC_CC_VOLT_RP ∧ chip.cc1 = TYPEC_CC_VOLT_OPEN) then
          set_state { chip with timer_mux := T_PD_SOURCE_ON } ConnState.attached_sink
        else
          set_state_unattached chip
      else
        { chip with timer_mux := 2 }
  else chip

/-- Attach-wait source, fusb302.c lines 1667-1703: pure CC debounce with
the source-side commit condition (one line Rd, the other not driven). -/
def fusb_state_attach_wait_source (chip : Chip) (evt : Nat) (env : Env) : Chip :=
  if evt &&& EVENT_TIMER_MUX ≠ 0 then
    let s := tcpm_get_cc chip env
    let chip :=
      if chip.cc1 = s.1 ∧ chip.cc2 = s.2 then
        { chip with debounce_cnt := chip.debounce_cnt + 1 }
      else
        { chip with cc1 := s.1, cc2 := s.2, debounce_cnt := 0 }
    if chip.debounce_cnt > N_DEBOUNCE_CNT then
      if (chip.cc1 = TYPEC_CC_VOLT_OPEN ∨ chip.cc2 = TYPEC_CC_VOLT_OPEN) ∧
         (chip.cc1 = TYPEC_CC_VOLT_RD ∨ chip.cc2 = TYPEC_CC_VOLT_RD) then
        if chip.role = ROLE_MODE_DRP ∧ chip.try_role = ROLE_MODE_UFP ∧
           ¬chip.try_role_complete then
          fusb_state_try_attach_set chip ROLE_MODE_UFP
        else
          set_state chip ConnState.attached_source
      else
        set_state_unattached chip
    else
      { chip with timer_mux := 2 }
  else chip

/-- Attached source, fusb302.c lines 1705-1721. -/
def fusb_state_attached_source (chip : Chip) (_evt : Nat) : Chip :=
  let chip := tcpm_set_polarity chip
    (if chip.cc_state &&& CC_STATE_TOGSS_CC1 ≠ 0 then TYPEC_POLARITY_CC1
     else TYPEC_POLARITY_CC2)
  let chip := tcpm_set_vconn chip 1
  let n := { chip.notify with is_cc_connected := true, power_role := POWER_ROLE_SOURCE, data_role := DATA_ROLE_DFP }
  set_state { chip with notify := n, hardrst_count := 0 } ConnState.policy_src_startup

/-- Attached sink, fusb302.c lines 1723-1752. -/
def fusb_state_attached_sink (chip : Chip) (evt : Nat) (env : Env) : Chip :=
  if tcpm_check_vbus env then
    let chip := { chip with timer_mux := T_DISABLED, timer_state := T_DISABLED }
    if ¬chip.try_role_complete ∧ chip.try_role = ROLE_MODE_DFP ∧
       chip.role = ROLE_MODE_DRP then
      fusb_state_try_attach_set chip ROLE_MODE_DFP
    else
      let n := { chip.notify with is_cc_connected := true, power_role := POWER_ROLE_SINK, data_role := DATA_ROLE_UFP }
      set_state { chip with try_role_complete := true, notify := n, hardrst_count := 0 }
        ConnState.policy_snk_startup
  else if evt &&& EVENT_TIMER_MUX ≠ 0 then
    set_state_unattached chip
  else
    { chip with timer_state := 2 }

/-- Try-attach probing, fusb302.c lines 1754-1784. -/
def fusb_state_try_attach (chip : Chip) (evt : Nat) (env : Env) (mode : Nat) : Chip :=
  if evt &&& EVENT_CC ≠ 0 ∧ chip.cc_state ≠ 0 then
    let chip := { chip with try_role_complete := true }
    let chip :=
      if CC_STATE_ROLE chip = CC_STATE_TOGSS_IS_UFP then
        set_state chip
          (if mode = ROLE_MODE_UFP then ConnState.attach_wait_sink
           else ConnState.error_recovery)
      else
        set_state chip
          (if mode = ROLE_MODE_DFP then ConnState.attach_wait_source
           else ConnState.error_recovery)
    let chip := tcpm_set_polarity chip
      (if chip.cc_state &&& CC_STATE_TOGSS_CC1 ≠ 0 then TYPEC_POLARITY_CC1
       else TYPEC_POLARITY_CC2)
    let s := tcpm_get_cc chip env
    { chip with cc1 := s.1, cc2 := s.2, debounce_cnt := 0, timer_mux := 2 }
  else if evt &&& EVENT_TIMER_MUX ≠ 0 then
    if ¬chip.try_role_complete then
      fusb_state_try_attach_set { chip with try_role_complete := true }
        (if mode = ROLE_MODE_DFP then ROLE_MODE_UFP else ROLE_MODE_DFP)
    else
      set_state chip ConnState.error_recovery
  else chip

/-- Attach-wait audio accessory, fusb302.c lines 1786-1817: CC debounce
with the Ra/Ra commit condition; the committing branch still re-arms the
poll timer (no early return in the C). -/
def fusb_state_attach_wait_audio_acc (chip : Chip) (evt : Nat) (env : Env) : Chip :=
  if evt &&& EVENT_TIMER_MUX ≠ 0 then
    let s := tcpm_get_cc chip env
    let chip :=
      if chip.cc1 = s.1 ∧ chip.cc2 = s.2 then
        { chip with debounce_cnt := chip.debounce_cnt + 1 }
      else
        { chip with cc1 := s.1, cc2 := s.2, debounce_cnt := 0 }
    if chip.debounce_cnt > N_DEBOUNCE_CNT then
      if chip.cc1 = TYPEC_CC_VOLT_RA ∧ chip.cc2 = TYPEC_CC_VOLT_RA then
        { set_state chip ConnState.attached_audio_acc with timer_mux := 2 }
      else
        set_state_unattached chip
    else
      { chip with timer_mux := 2 }
  else chip

/-- Attached audio accessory, fusb302.c lines 1819-1830. -/
def fusb_state_attached_audio_acc (chip : Chip) (_evt : Nat) : Chip :=
  let chip := tcpm_set_polarity chip
    (if chip.cc_state &&& CC_STATE_TOGSS_CC1 ≠ 0 then TYPEC_POLARITY_CC1
     else TYPEC_POLARITY_CC2)
  let n := { chip.notify with is_cc_connected := true }
  set_state { chip with notify := n, hardrst_count := 0 } ConnState.disabled

/-- Soft-reset parameter reset, fusb302.c lines 1832-1841. -/
def fusb_soft_reset_parameter (chip : Chip) : Chip :=
  { chip with caps_counter := 0, msg_id := 0,
              vdm_state := VDM_STATE_DISCOVERY_ID, vdm_substate := 0,
              vdm_send_state := 0, val_tmp := 0, pos_power := 0 }

/-- Source startup, fusb302.c lines 1843-1856. -/
def fusb_state_src_startup (chip : Chip) (_evt : Nat) : Chip :=
  let chip := { chip with notify := { chip.notify with is_pd_connected := false } }
  let chip := fusb_soft_reset_parameter chip
  let chip := { chip with partner_cap := List.replicate 8 0 }
  let chip := tcpm_set_polarity chip chip.cc_polarity
  let chip := set_state chip ConnState.policy_src_send_caps
  (platform_fusb_notify chip).1

/-- Source discovery (capability-send retry gate), fusb302.c lines
1858-1886: bump `caps_counter`; below `N_CAPS_COUNT` arm the resend timer,
otherwise give the connection up as `disabled`. -/
def fusb_state_src_discovery (chip : Chip) (evt : Nat) : Chip :=
  if chip.sub_state = 0 then
    let chip := { chip with caps_counter := chip.caps_counter + 1 }
    if chip.caps_counter < N_CAPS_COUNT then
      { chip with timer_state := T_TYPEC_SEND_SOURCECAP, sub_state := 1 }
    else
      set_state chip ConnState.disabled
  else
    if evt &&& EVENT_TIMER_STATE ≠ 0 then
      set_state chip ConnState.policy_src_send_caps
    else if evt &&& EVENT_TIMER_MUX ≠ 0 then
      if ¬chip.is_pd_support then set_state chip ConnState.disabled
      else if chip.hardrst_count > N_HARDRESET_COUNT then
        set_state chip ConnState.error_recovery
      else set_state chip ConnState.policy_src_send_hardrst
    else chip

/-- Response phase of `fusb_state_src_send_caps` (the default case of its
switch), fusb302.c lines 1917-1937. -/
def fusb_state_src_send_caps_tail (chip : Chip) (evt : Nat) : Chip :=
  if evt &&& EVENT_RX ≠ 0 then
    if PACKET_IS_DATA_MSG chip.rec_head DMT_REQUEST then
      set_state chip ConnState.policy_src_negotiate_cap
    else
      set_state chip ConnState.policy_src_send_softrst
  else if evt &&& EVENT_TIMER_STATE ≠ 0 then
    if chip.hardrst_count ≤ N_HARDRESET_COUNT then
      set_state chip ConnState.policy_src_send_hardrst
    else
      set_state chip ConnState.disabled
  else if evt &&& EVENT_TIMER_MUX ≠ 0 then
    if ¬chip.is_pd_support then set_state chip ConnState.disabled
    else if chip.hardrst_count > N_HARDRESET_COUNT then
      set_state chip ConnState.error_recovery
    else set_state chip ConnState.policy_src_send_hardrst
  else chip

/-- Source capability transmission, fusb302.c lines 1888-1939: stage and
send Source_Capabilities; a transmit failure retries via
`policy_src_discovery`; after a confirmed send the handler only falls
through to the response check when the tick carries a FLAG_EVENT. -/
def fusb_state_src_send_caps (chip0 : Chip) (evt : Nat) : Chip :=
  if chip0.sub_state = 0 ∨ chip0.sub_state = 1 then
    let chip :=
      if chip0.sub_state = 0 then
        { set_mesg chip0 DMT_SOURCECAPABILITIES DATAMESSAGE with
            sub_state := 1, tx_state := tx_idle }
      else chip0
    let (chip, tmp) := policy_send_data chip
    if tmp = tx_success then
      let chip := { chip with
          hardrst_count := 0, caps_counter := 0,
          timer_state := T_SENDER_RESPONSE, timer_mux := T_DISABLED,
          sub_state := chip.sub_state + 1, is_pd_support := true }
      if evt &&& FLAG_EVENT = 0 then chip
      else fusb_state_src_send_caps_tail chip evt
    else if tmp = tx_failed then
      set_state chip ConnState.policy_src_discovery
    else if evt &&& FLAG_EVENT = 0 then chip
    else fusb_state_src_send_caps_tail chip evt
  else fusb_state_src_send_caps_tail chip0 evt

/-- Request evaluation, fusb302.c lines 1941-1951: accept when the
requested object position (bits 30:28 of the first received object) does
not exceed the advertised count, reject otherwise. -/
def fusb_state_src_negotiate_cap (chip : Chip) (_evt : Nat) : Chip :=
  let tmp := (chip.rec_load.getD 0 0 >>> 28) &&& 0x07
  if tmp > chip.n_caps_used then
    set_state chip ConnState.policy_src_cap_response
  else
    set_state chip ConnState.policy_src_transition_supply

/-- Source supply transition, fusb302.c lines 1953-1996. -/
def fusb_state_src_transition_supply (chip : Chip) (evt : Nat) : Chip :=
  if chip.sub_state = 0 ∨ chip.sub_state = 1 then
    let chip :=
      if chip.sub_state = 0 then
        { set_mesg chip CMT_ACCEPT CONTROLMESSAGE with
            tx_state := tx_idle, sub_state := chip.sub_state + 1 }
      else chip
    let (chip, tmp) := policy_send_data chip
    if tmp = tx_success then
      { chip with timer_state := T_SRC_TRANSITION, sub_state := chip.sub_state + 1 }
    else if tmp = tx_failed then
      set_state chip ConnState.policy_src_send_softrst
    else chip
  else if chip.sub_state = 2 then
    if evt &&& EVENT_TIMER_STATE ≠ 0 then
      let chip := { chip with notify := { chip.notify with is_pd_connected := true } }
      { set_mesg chip CMT_PS_RDY CONTROLMESSAGE with
          tx_state := tx_idle, sub_state := chip.sub_state + 1,
          work_continue := chip.work_continue ||| EVENT_WORK_CONTINUE }
    else chip
  else
    let (chip, tmp) := policy_send_data chip
    if tmp = tx_success then
      set_state chip ConnState.policy_src_ready
    else if tmp = tx_failed then
      set_state chip ConnState.policy_src_send_softrst
    else chip

/-- Reject response, fusb302.c lines 1998-2023. -/
def fusb_state_src_cap_response (chip0 : Chip) (_evt : Nat) : Chip :=
  let chip :=
    if chip0.sub_state = 0 then
      { set_mesg chip0 CMT_REJECT CONTROLMESSAGE with
          tx_state := tx_idle, sub_state := chip0.sub_state + 1 }
    else chip0
  let (chip, tmp) := policy_send_data chip
  if tmp = tx_success then
    if chip.notify.is_pd_connected then
      set_state chip ConnState.policy_src_ready
    else
      set_state chip ConnState.policy_src_send_hardrst
  else if tmp = tx_failed then
    set_state chip ConnState.policy_src_send_softrst
  else chip

/-- Source hard-reset recovery, fusb302.c lines 2025-2059. -/
def fusb_state_src_transition_default (chip : Chip) (evt : Nat) : Chip :=
  if chip.sub_state = 0 then
    let chip := { chip with notify := { chip.notify with is_pd_connected := false } }
    { chip with timer_state := T_SRC_RECOVER, sub_state := chip.sub_state + 1 }
  else
    if evt &&& EVENT_TIMER_STATE ≠ 0 then
      set_state { chip with timer_mux := T_NO_RESPONSE } ConnState.policy_src_startup
    else chip

/-- VCONN-swap evaluation on the UFP side, fusb302.c lines 2061-2067. -/
def fusb_state_vcs_ufp_evaluate_swap (chip : Chip) (_evt : Nat) : Chip :=
  if chip.vconn_supported then
    set_state chip ConnState.policy_vcs_ufp_accept
  else
    set_state chip ConnState.policy_vcs_ufp_reject

/-- Swap-request routing from the ready states, fusb302.c lines
2069-2088. -/
def fusb_state_swap_msg_process (chip : Chip) (evt : Nat) : Chip :=
  if evt &&& EVENT_RX ≠ 0 then
    if PACKET_IS_CONTROL_MSG chip.rec_head CMT_PR_SWAP then
      set_state chip ConnState.policy_src_prs_evaluate
    else if PACKET_IS_CONTROL_MSG chip.rec_head CMT_VCONN_SWAP then
      if chip.notify.data_role ≠ 0 then set_state chip chip.conn_state
      else set_state chip ConnState.policy_vcs_ufp_evaluate_swap
    else if PACKET_IS_CONTROL_MSG chip.rec_head CMT_DR_SWAP then
      if chip.notify.data_role ≠ 0 then
        set_state chip ConnState.policy_drs_dfp_evaluate
      else
        set_state chip ConnState.policy_drs_ufp_evaluate
    else chip
  else chip

/-- Auto-VDM engine activity test, fusb302.c lines 2090-2091. -/
def VDM_IS_ACTIVE (chip : Chip) : Prop :=
  chip.notify.data_role ≠ 0 ∧ chip.vdm_state < VDM_STATE_READY

instance (chip : Chip) : Decidable (VDM_IS_ACTIVE chip) :=
  inferInstanceAs (Decidable (_ ∧ _))

/-- Source ready state, fusb302.c lines 2093-2109. -/
def fusb_state_src_ready (chip : Chip) (evt : Nat) : Chip :=
  let chip :=
    if evt &&& EVENT_RX ≠ 0 then
      if PACKET_IS_DATA_MSG chip.rec_head DMT_VENDERDEFINED then
        let chip := process_vdm_msg chip
        { chip with work_continue := chip.work_continue ||| EVENT_WORK_CONTINUE,
                    timer_state := T_DISABLED }
      else if ¬VDM_IS_ACTIVE chip then
        fusb_state_swap_msg_process chip evt
      else chip
    else chip
  if chip.partner_cap.getD 0 0 = 0 then
    set_state chip ConnState.policy_src_get_sink_caps
  else if VDM_IS_ACTIVE chip then
    auto_vdm_machine chip evt
  else chip

/-- Power-role-swap evaluation, fusb302.c lines 2111-2117. -/
def fusb_state_prs_evaluate (chip : Chip) (_evt : Nat) : Chip :=
  if chip.role = ROLE_MODE_DRP then
    set_state chip ConnState.policy_src_prs_accept
  else
    set_state chip ConnState.policy_src_prs_reject

/-- One-shot message send with success/failure targets, fusb302.c lines
2119-2139. -/
def fusb_state_send_simple_msg (chip0 : Chip) (_evt : Nat) (cmd is_DMT : Nat)
    (state_success state_failed : ConnState) : Chip :=
  if chip0.sub_state = 0 ∨ chip0.sub_state = 1 then
    let chip :=
      if chip0.sub_state = 0 then
        { set_mesg chip0 cmd is_DMT with
            tx_state := tx_idle, sub_state := chip0.sub_state + 1 }
      else chip0
    let (chip, tmp) := policy_send_data chip
    if tmp = tx_success then set_state chip state_success
    else if tmp = tx_failed then set_state chip state_failed
    else chip
  else chip0

/-- Swap rejection sender, fusb302.c lines 2141-2149. -/
def fusb_state_prs_reject (chip : Chip) (evt : Nat) : Chip :=
  fusb_state_send_simple_msg chip evt CMT_REJECT CONTROLMESSAGE
    (if chip.notify.power_role ≠ 0 then ConnState.policy_src_ready
     else ConnState.policy_snk_ready)
    (if chip.notify.power_role ≠ 0 then ConnState.policy_src_send_softrst
     else ConnState.policy_snk_send_softrst)

/-- Power-role-swap accept sender, fusb302.c lines 2151-2160. -/
def fusb_state_prs_accept (chip : Chip) (evt : Nat) : Chip :=
  fusb_state_send_simple_msg chip evt CMT_ACCEPT CONTROLMESSAGE
    (if chip.notify.power_role ≠ 0 then ConnState.policy_src_prs_transition_to_off
     else ConnState.policy_snk_prs_transition_to_off)
    (if chip.notify.power_role ≠ 0 then ConnState.policy_src_send_softrst
     else ConnState.policy_snk_send_softrst)

/-- VCONN-swap accept sender on the UFP side, fusb302.c lines 2162-2171. -/
def fusb_state_vcs_ufp_accept (chip : Chip) (evt : Nat) : Chip :=
  fusb_state_send_simple_msg chip evt CMT_ACCEPT CONTROLMESSAGE
    (if chip.vconn_enabled then ConnState.policy_vcs_ufp_wait_for_dfp_vconn
     else ConnState.policy_vcs_ufp_turn_on_vconn)
    (if chip.notify.power_role ≠ 0 then ConnState.policy_src_send_softrst
     else ConnState.policy_snk_send_softrst)

/-- VCONN switch during a swap, fusb302.c lines 2173-2188. -/
def fusb_state_vcs_set_vconn (chip : Chip) (_evt : Nat) (turn_on : Bool) : Chip :=
  if turn_on then
    set_state (tcpm_set_vconn chip 1)
      (if chip.notify.data_role ≠ 0 then ConnState.policy_vcs_dfp_send_ps_rdy
       else ConnState.policy_vcs_ufp_send_ps_rdy)
  else
    let chip := tcpm_set_vconn chip 0
    if chip.notify.power_role ≠ 0 then set_state chip ConnState.policy_src_ready
    else set_state chip ConnState.policy_snk_ready

/-- PS_RDY sender after a VCONN swap, fusb302.c lines 2190-2198. -/
def fusb_state_vcs_send_ps_rdy (chip : Chip) (evt : Nat) : Chip :=
  fusb_state_send_simple_msg chip evt CMT_PS_RDY CONTROLMESSAGE
    (if chip.notify.power_role ≠ 0 then ConnState.policy_src_ready
     else ConnState.policy_snk_ready)
    (if chip.notify.power_role ≠ 0 then ConnState.policy_src_send_softrst
     else ConnState.policy_snk_send_softrst)

/-- Wait for the partner's VCONN hand-over, fusb302.c lines 2200-2223. -/
def fusb_state_vcs_wait_for_vconn (chip : Chip) (evt : Nat) : Chip :=
  if chip.sub_state = 0 ∨ chip.sub_state = 1 then
    let chip :=
      if chip.sub_state = 0 then
        { chip with timer_state := T_PD_VCONN_SRC_ON, sub_state := chip.sub_state + 1 }
      else chip
    if evt &&& EVENT_RX ≠ 0 then
      if PACKET_IS_CONTROL_MSG chip.rec_head CMT_PS_RDY then
        set_state chip
          (if chip.notify.data_role ≠ 0 then ConnState.policy_vcs_dfp_turn_off_vconn
           else ConnState.policy_vcs_ufp_turn_off_vconn)
      else chip
    else if evt &&& EVENT_TIMER_STATE ≠ 0 then
      set_state chip
        (if chip.notify.power_role ≠ 0 then ConnState.policy_src_send_hardrst
         else ConnState.policy_snk_send_hardrst)
    else chip
  else chip

/-- Source power-off phase of a power-role swap, fusb302.c lines
2225-2246. -/
def fusb_state_src_prs_transition_to_off (chip : Chip) (evt : Nat) : Chip :=
  if chip.sub_state = 0 then
    { chip with timer_state := T_SRC_TRANSITION, sub_state := chip.sub_state + 1 }
  else if chip.sub_state = 1 then
    if evt &&& EVENT_TIMER_STATE ≠ 0 then
      let chip := { chip with notify := { chip.notify with power_role := POWER_ROLE_SINK } }
      if chip.role = ROLE_MODE_DRP then
        set_state chip ConnState.policy_src_prs_assert_rd
      else
        set_state chip ConnState.policy_src_prs_source_off
    else chip
  else chip

/-- Assert Rd after powering off, fusb302.c lines 2248-2252. -/
def fusb_state_src_prs_assert_rd (chip : Chip) (_evt : Nat) : Chip :=
  set_state chip ConnState.policy_src_prs_source_off

/-- Source-off handshake of a power-role swap, fusb302.c lines
2254-2301. -/
def fusb_state_src_prs_source_off (chip : Chip) (evt : Nat) : Chip :=
  if chip.sub_state = 0 ∨ chip.sub_state = 1 then
    let chip :=
      if chip.sub_state = 0 then
        { set_mesg chip CMT_PS_RDY CONTROLMESSAGE with
            tx_state := tx_idle, sub_state := chip.sub_state + 1 }
      else chip
    let (chip, tmp) := policy_send_data chip
    if tmp = tx_success then
      { chip with timer_state := T_PD_SOURCE_ON, sub_state := chip.sub_state + 1 }
    else if tmp = tx_failed then
      let chip := { chip with notify := { chip.notify with power_role := POWER_ROLE_SOURCE } }
      set_state chip ConnState.policy_src_send_hardrst
    else chip
  else
    if evt &&& EVENT_RX ≠ 0 then
      if PACKET_IS_CONTROL_MSG chip.rec_head CMT_PS_RDY then
        let chip := { chip with timer_state := T_DISABLED }
        let chip := { chip with notify := { chip.notify with is_pd_connected := false } }
        let cs := (chip.cc_state &&& (0xffffffff ^^^ CC_STATE_TOGSS_ROLE)) ||| CC_STATE_TOGSS_IS_UFP
        let chip := { chip with cc_state := cs }
        let chip := tcpm_set_polarity chip chip.cc_polarity
        set_state chip ConnState.policy_snk_discovery
      else chip
    else if evt &&& EVENT_TIMER_STATE ≠ 0 then
      let chip := { chip with notify := { chip.notify with power_role := POWER_ROLE_SOURCE } }
      set_state chip ConnState.policy_src_send_hardrst
    else chip

/-- Data-role-swap evaluation, fusb302.c lines 2303-2316. -/
def fusb_state_drs_evaluate (chip : Chip) (_evt : Nat) : Chip :=
  if chip.pd_cap_info.data_role_swap ≠ 0 then
    set_state chip
      (if chip.notify.data_role ≠ 0 then ConnState.policy_drs_dfp_reject
       else ConnState.policy_drs_ufp_accept)
  else
    set_state chip
      (if chip.notify.data_role ≠ 0 then ConnState.policy_drs_dfp_reject
       else ConnState.policy_drs_ufp_reject)

/-- Data-role-swap accept sender, fusb302.c lines 2318-2325. -/
def fusb_state_drs_send_accept (chip : Chip) (evt : Nat) : Chip :=
  fusb_state_send_simple_msg chip evt CMT_ACCEPT CONTROLMESSAGE
    (if chip.notify.power_role ≠ 0 then ConnState.policy_drs_dfp_change
     else ConnState.policy_drs_ufp_change)
    ConnState.error_recovery

/-- Data-role relabel, fusb302.c lines 2327-2334. -/
def fusb_state_drs_role_change (chip : Chip) (_evt : Nat) : Chip :=
  let n := { chip.notify with data_role :=
    if chip.notify.data_role ≠ 0 then DATA_ROLE_UFP else DATA_ROLE_DFP }
  let chip := { chip with notify := n }
  set_state chip
    (if chip.notify.power_role ≠ 0 then ConnState.policy_src_ready
     else ConnState.policy_snk_ready)

/-- Response phase of `fusb_state_src_get_sink_cap` (the default case of
its switch), fusb302.c lines 2359-2379. -/
def fusb_state_src_get_sink_cap_tail (chip : Chip) (evt : Nat) : Chip :=
  if evt &&& EVENT_RX ≠ 0 then
    if PACKET_IS_DATA_MSG chip.rec_head DMT_SINKCAPABILITIES then
      let cnt := PD_HEADER_CNT chip.rec_head
      let pc := (List.range 8).map (fun i =>
        if i < cnt then chip.rec_load.getD i 0 else chip.partner_cap.getD i 0)
      set_state { chip with partner_cap := pc } ConnState.policy_src_ready
    else
      set_state { chip with partner_cap := chip.partner_cap.set 0 0xffffffff }
        ConnState.policy_src_ready
  else if evt &&& EVENT_TIMER_STATE ≠ 0 then
    set_state { chip with partner_cap := chip.partner_cap.set 0 0xffffffff }
      ConnState.policy_src_ready
  else chip

/-- Sink-capability query, fusb302.c lines 2336-2380. -/
def fusb_state_src_get_sink_cap (chip0 : Chip) (evt : Nat) : Chip :=
  if chip0.sub_state = 0 ∨ chip0.sub_state = 1 then
    let chip :=
      if chip0.sub_state = 0 then
        { set_mesg chip0 CMT_GETSINKCAP CONTROLMESSAGE with
            tx_state := tx_idle, sub_state := chip0.sub_state + 1 }
      else chip0
    let (chip, tmp) := policy_send_data chip
    if tmp = tx_success then
      let chip := { chip with timer_state := T_SENDER_RESPONSE,
                              sub_state := chip.sub_state + 1 }
      if evt &&& FLAG_EVENT = 0 then chip
      else fusb_state_src_get_sink_cap_tail chip evt
    else if tmp = tx_failed then
      set_state chip ConnState.policy_src_send_softrst
    else if evt &&& FLAG_EVENT = 0 then chip
    else fusb_state_src_get_sink_cap_tail chip evt
  else fusb_state_src_get_sink_cap_tail chip0 evt

/-- Source hard-reset sender, fusb302.c lines 2382-2402: on confirmation
bump `hardrst_count` and enter the recovery state. -/
def fusb_state_src_send_hardreset (chip : Chip) (evt : Nat) : Chip :=
  let chip :=
    if chip.sub_state = 0 then
      { chip with tx_state := tx_idle, sub_state := chip.sub_state + 1 }
    else chip
  let (chip, tmp) := policy_send_hardrst chip evt
  if tmp = tx_success then
    set_state { chip with hardrst_count := chip.hardrst_count + 1 }
      ConnState.policy_src_transition_default
  else if tmp = tx_failed then
    set_state chip ConnState.error_recovery
  else chip

/-- Source soft-reset accept flow, fusb302.c lines 2404-2424: send Accept
and on success restart the capability exchange. -/
def fusb_state_src_softreset (chip : Chip) : Chip :=
  let chip :=
    if chip.sub_state = 0 then
      { set_mesg chip CMT_ACCEPT CONTROLMESSAGE with
          tx_state := tx_idle, sub_state := chip.sub_state + 1 }
    else chip
  let (chip, tmp) := policy_send_data chip
  if tmp = tx_success then
    set_state (fusb_soft_reset_parameter chip) ConnState.policy_src_send_caps
  else if tmp = tx_failed then
    set_state chip ConnState.policy_src_send_hardrst
  else chip

/-- Response phase of `fusb_state_src_send_softreset`, fusb302.c lines
2449-2458. -/
def fusb_state_src_send_softreset_tail (chip : Chip) (evt : Nat) : Chip :=
  if evt &&& EVENT_RX ≠ 0 then
    if PACKET_IS_CONTROL_MSG chip.rec_head CMT_ACCEPT then
      set_state (fusb_soft_reset_parameter chip) ConnState.policy_src_send_caps
    else chip
  else if evt &&& EVENT_TIMER_STATE ≠ 0 then
    set_state chip ConnState.policy_src_send_hardrst
  else chip

/-- Source soft-reset request sender, fusb302.c lines 2426-2460. -/
def fusb_state_src_send_softreset (chip0 : Chip) (evt : Nat) : Chip :=
  if chip0.sub_state = 0 ∨ chip0.sub_state = 1 then
    let chip :=
      if chip0.sub_state = 0 then
        { set_mesg chip0 CMT_SOFTRESET CONTROLMESSAGE with
            tx_state := tx_idle, sub_state := chip0.sub_state + 1 }
      else chip0
    let (chip, tmp) := policy_send_data chip
    if tmp = tx_success then
      let chip := { chip with timer_state := T_SENDER_RESPONSE,
                              sub_state := chip.sub_state + 1 }
      if evt &&& FLAG_EVENT = 0 then chip
      else fusb_state_src_send_softreset_tail chip evt
    else if tmp = tx_failed then
      set_state chip ConnState.policy_src_send_hardrst
    else if evt &&& FLAG_EVENT = 0 then chip
    else fusb_state_src_send_softreset_tail chip evt
  else fusb_state_src_send_softreset_tail chip0 evt

/-- Sink startup, fusb302.c lines 2462-2474. -/
def fusb_state_snk_startup (chip : Chip) (_evt : Nat) : Chip :=
  let chip := { chip with notify := { chip.notify with is_pd_connected := false } }
  let chip := fusb_soft_reset_parameter chip
  let chip := { chip with partner_cap := List.replicate 8 0 }
  let chip := tcpm_set_polarity chip chip.cc_polarity
  let chip := set_state chip ConnState.policy_snk_discovery
  (platform_fusb_notify chip).1

/-- Sink discovery, fusb302.c lines 2476-2482. -/
def fusb_state_snk_discovery (chip : Chip) (_evt : Nat) : Chip :=
  let chip := set_state chip ConnState.policy_snk_wait_caps
  { chip with timer_state := T_TYPEC_SINK_WAIT_CAP }

/-- Sink wait-for-capabilities, fusb302.c lines 2484-2514: receipt of
Source_Capabilities advances; a timeout escalates to soft/hard reset only
while `hardrst_count` is within `N_HARDRESET_COUNT`, otherwise to
`error_recovery`/`disabled`. -/
def fusb_state_snk_wait_caps (chip : Chip) (evt : Nat) : Chip :=
  if evt &&& EVENT_RX ≠ 0 then
    if PACKET_IS_DATA_MSG chip.rec_head DMT_SOURCECAPABILITIES then
      set_state { chip with is_pd_support := true, timer_mux := T_DISABLED }
        ConnState.policy_snk_evaluate_caps
    else chip
  else if evt &&& EVENT_TIMER_STATE ≠ 0 then
    if chip.hardrst_count ≤ N_HARDRESET_COUNT then
      if chip.vbus_begin then
        set_state { chip with vbus_begin := false } ConnState.policy_snk_send_softrst
      else
        set_state chip ConnState.policy_snk_send_hardrst
    else
      if chip.is_pd_support then set_state chip ConnState.error_recovery
      else set_state chip ConnState.disabled
  else if evt &&& EVENT_TIMER_MUX ≠ 0 ∧ chip.hardrst_count > N_HARDRESET_COUNT then
    if chip.is_pd_support then set_state chip ConnState.error_recovery
    else set_state chip ConnState.disabled
  else chip

/-- Sink capability evaluation, fusb302.c lines 2516-2548. -/
def fusb_state_snk_evaluate_caps (chip : Chip) (_evt : Nat) (env : Env) : Chip :=
  let chip := { chip with hardrst_count := 0, pos_power := 0 }
  let chip := (List.range (PD_HEADER_CNT chip.rec_head)).foldl (fun c tmp =>
    let pdo := c.rec_load.getD tmp 0
    if CAP_POWER_TYPE pdo = 0 then
      if CAP_FPDO_VOLTAGE pdo ≤ 100 then { c with pos_power := tmp + 1 } else c
    else if CAP_POWER_TYPE pdo = 1 then
      if CAP_VPDO_VOLTAGE pdo ≤ 100 then { c with pos_power := tmp + 1 } else c
    else c) chip
  let chip := fusb302_set_pos_power_by_charge_ic chip env
  if chip.pos_power = 0 ∨ chip.pos_power > 7 then
    set_state { chip with pos_power := 0 } ConnState.policy_snk_wait_caps
  else
    set_state chip ConnState.policy_snk_select_cap

/-- Response phase of `fusb_state_snk_select_cap`, fusb302.c lines
2575-2612: Accept starts the supply transition; Wait/Reject before a
contract returns to wait-caps with `hardrst_count` saturated beyond
`N_HARDRESET_COUNT` so no hard reset will be sent. -/
def fusb_state_snk_select_cap_tail (chip : Chip) (evt : Nat) : Chip :=
  if evt &&& EVENT_RX ≠ 0 then
    if PD_HEADER_CNT chip.rec_head = 0 then
      if PD_HEADER_TYPE chip.rec_head = CMT_ACCEPT then
        { set_state chip ConnState.policy_snk_transition_sink with
            timer_state := T_PS_TRANSITION }
      else if PD_HEADER_TYPE chip.rec_head = CMT_WAIT ∨
              PD_HEADER_TYPE chip.rec_head = CMT_REJECT then
        if chip.notify.is_pd_connected then
          set_state chip ConnState.policy_snk_ready
        else
          { set_state chip ConnState.policy_snk_wait_caps with
              hardrst_count := N_HARDRESET_COUNT + 1 }
      else chip
    else chip
  else if evt &&& EVENT_TIMER_STATE ≠ 0 then
    set_state chip ConnState.policy_snk_send_hardrst
  else chip

/-- Sink Request transmission, fusb302.c lines 2550-2614. -/
def fusb_state_snk_select_cap (chip0 : Chip) (evt : Nat) : Chip :=
  if chip0.sub_state = 0 ∨ chip0.sub_state = 1 then
    let chip :=
      if chip0.sub_state = 0 then
        { set_mesg chip0 DMT_REQUEST DATAMESSAGE with
            sub_state := 1, tx_state := tx_idle }
      else chip0
    let (chip, tmp) := policy_send_data chip
    if tmp = tx_success then
      let chip := { chip with timer_state := T_SENDER_RESPONSE,
                              sub_state := chip.sub_state + 1 }
      if evt &&& FLAG_EVENT = 0 then chip
      else fusb_state_snk_select_cap_tail chip evt
    else if tmp = tx_failed then
      set_state chip ConnState.policy_snk_discovery
    else if evt &&& FLAG_EVENT = 0 then chip
    else fusb_state_snk_select_cap_tail chip evt
  else fusb_state_snk_select_cap_tail chip0 evt

/-- Sink supply transition, fusb302.c lines 2616-2631. -/
def fusb_state_snk_transition_sink (chip : Chip) (evt : Nat) : Chip :=
  if evt &&& EVENT_RX ≠ 0 then
    if PACKET_IS_CONTROL_MSG chip.rec_head CMT_PS_RDY then
      let chip := { chip with notify := { chip.notify with is_pd_connected := true } }
      set_state chip ConnState.policy_snk_ready
    else if PACKET_IS_DATA_MSG chip.rec_head DMT_SOURCECAPABILITIES then
      set_state chip ConnState.policy_snk_evaluate_caps
    else chip
  else if evt &&& EVENT_TIMER_STATE ≠ 0 then
    set_state chip ConnState.policy_snk_send_hardrst
  else chip

/-- Sink hard-reset recovery, fusb302.c lines 2633-2669. -/
def fusb_state_snk_transition_default (chip : Chip) (evt : Nat) (env : Env) : Chip :=
  if chip.sub_state = 0 ∨ chip.sub_state = 1 then
    let chip :=
      if chip.sub_state = 0 then
        let c := { chip with notify := { chip.notify with is_pd_connected := false } }
        { c with timer_mux := T_NO_RESPONSE,
                 timer_state := T_PS_HARD_RESET_MAX + T_SAFE_0V,
                 sub_state := c.sub_state + 1 }
      else chip
    if ¬tcpm_check_vbus env then
      { chip with sub_state := chip.sub_state + 1,
                  timer_state := T_SRC_RECOVER_MAX + T_SRC_TURN_ON }
    else if evt &&& EVENT_TIMER_STATE ≠ 0 then
      set_state chip ConnState.policy_snk_startup
    else chip
  else
    if tcpm_check_vbus env then
      set_state { chip with timer_state := T_DISABLED } ConnState.policy_snk_startup
    else if evt &&& EVENT_TIMER_STATE ≠ 0 then
      set_state chip ConnState.policy_snk_startup
    else chip

/-- Sink ready state, fusb302.c lines 2671-2688. -/
def fusb_state_snk_ready (chip : Chip) (evt : Nat) : Chip :=
  let chip :=
    if evt &&& EVENT_RX ≠ 0 then
      if PACKET_IS_DATA_MSG chip.rec_head DMT_VENDERDEFINED then
        let chip := process_vdm_msg chip
        { chip with work_continue := chip.work_continue ||| EVENT_WORK_CONTINUE,
                    timer_state := T_DISABLED }
      else if ¬VDM_IS_ACTIVE chip then
        fusb_state_swap_msg_process chip evt
      else chip
    else chip
  let chip := if VDM_IS_ACTIVE chip then auto_vdm_machine chip evt else chip
  let chip := fusb_state_swap_msg_process chip evt
  (platform_fusb_notify chip).1

/-- Sink hard-reset sender, fusb302.c lines 2690-2708. -/
def fusb_state_snk_send_hardreset (chip : Chip) (evt : Nat) : Chip :=
  let chip :=
    if chip.sub_state = 0 then
      { chip with tx_state := tx_idle, sub_state := chip.sub_state + 1 }
    else chip
  let (chip, tmp) := policy_send_hardrst chip evt
  if tmp = tx_success then
    set_state { chip with hardrst_count := chip.hardrst_count + 1 }
      ConnState.policy_snk_transition_default
  else if tmp = tx_failed then
    set_state chip ConnState.error_recovery
  else chip

/-- Swap-request sender, fusb302.c lines 2710-2778. -/
def fusb_state_send_swap (chip : Chip) (evt cmd : Nat) : Chip :=
  if chip.sub_state = 0 ∨ chip.sub_state = 1 then
    let chip :=
      if chip.sub_state = 0 then
        { set_mesg chip cmd CONTROLMESSAGE with
            sub_state := 1, tx_state := tx_idle }
      else chip
    let (chip, tmp) := policy_send_data chip
    if tmp = tx_success then
      { chip with timer_state := T_SENDER_RESPONSE, sub_state := chip.sub_state + 1 }
    else if tmp = tx_failed then
      if cmd = CMT_DR_SWAP then set_state chip ConnState.error_recovery
      else if chip.notify.power_role ≠ 0 then
        set_state chip ConnState.policy_src_send_softrst
      else
        set_state chip ConnState.policy_snk_send_softrst
    else chip
  else if chip.sub_state = 2 then
    if evt &&& EVENT_RX ≠ 0 then
      if PACKET_IS_CONTROL_MSG chip.rec_head CMT_ACCEPT then
        let chip := { chip with timer_state := T_DISABLED }
        if cmd = CMT_VCONN_SWAP then
          set_state chip
            (if chip.vconn_enabled then ConnState.policy_vcs_dfp_wait_for_ufp_vconn
             else ConnState.policy_vcs_dfp_turn_on_vconn)
        else if cmd = CMT_PR_SWAP then
          let chip :=
            if chip.notify.power_role ≠ 0 then
              set_state chip ConnState.policy_src_prs_transition_to_off
            else
              set_state chip ConnState.policy_snk_prs_transition_to_off
          { chip with notify := { chip.notify with power_role := POWER_ROLE_SOURCE } }
        else if cmd = CMT_DR_SWAP then
          set_state chip
            (if chip.notify.data_role ≠ 0 then ConnState.policy_drs_dfp_change
             else ConnState.policy_drs_ufp_change)
        else chip
      else if PACKET_IS_CONTROL_MSG chip.rec_head CMT_REJECT ∨
              PACKET_IS_CONTROL_MSG chip.rec_head CMT_WAIT then
        let chip := { chip with timer_state := T_DISABLED }
        if chip.notify.power_role ≠ 0 then set_state chip ConnState.policy_src_ready
        else set_state chip ConnState.policy_snk_ready
      else chip
    else if evt &&& EVENT_TIMER_STATE ≠ 0 then
      if chip.notify.power_role ≠ 0 then set_state chip ConnState.policy_src_ready
      else set_state chip ConnState.policy_snk_ready
    else chip
  else chip

/-- Sink side waiting for the old source to power off, fusb302.c lines
2780-2812. -/
def fusb_state_snk_prs_transition_to_off (chip : Chip) (evt : Nat) : Chip :=
  if chip.sub_state = 0 ∨ chip.sub_state = 1 then
    let chip :=
      if chip.sub_state = 0 then
        { chip with timer_state := T_PD_SOURCE_OFF, sub_state := chip.sub_state + 1 }
      else chip
    if evt &&& EVENT_RX ≠ 0 then
      if PACKET_IS_CONTROL_MSG chip.rec_head CMT_PS_RDY then
        if chip.role = ROLE_MODE_DRP then
          set_state chip ConnState.policy_snk_prs_assert_rp
        else
          set_state chip ConnState.policy_snk_prs_source_on
      else chip
    else if evt &&& EVENT_TIMER_STATE ≠ 0 then
      let chip := { chip with notify := { chip.notify with power_role := POWER_ROLE_SINK } }
      set_state chip ConnState.policy_snk_send_hardrst
    else chip
  else chip

/-- Assert Rp before sourcing, fusb302.c lines 2814-2818. -/
def fusb_state_snk_prs_assert_rp (chip : Chip) (_evt : Nat) : Chip :=
  set_state chip ConnState.policy_snk_prs_source_on

/-- New-source power-on handshake, fusb302.c lines 2820-2860. -/
def fusb_state_snk_prs_source_on (chip : Chip) (evt : Nat) : Chip :=
  if chip.sub_state = 0 then
    { chip with sub_state := chip.sub_state + 1,
                work_continue := chip.work_continue ||| EVENT_WORK_CONTINUE }
  else if chip.sub_state = 1 ∨ chip.sub_state = 2 then
    let chip :=
      if chip.sub_state = 1 then
        { set_mesg chip CMT_PS_RDY CONTROLMESSAGE with
            tx_state := tx_idle, sub_state := chip.sub_state + 1 }
      else chip
    let (chip, tmp) := policy_send_data chip
    if tmp = tx_success then
      { chip with timer_state := T_PD_SWAP_SOURCE_START, sub_state := chip.sub_state + 1 }
    else if tmp = tx_failed then
      let chip := { chip with notify := { chip.notify with power_role := POWER_ROLE_SINK } }
      set_state chip ConnState.policy_snk_send_hardrst
    else chip
  else if chip.sub_state = 3 then
    if evt &&& EVENT_TIMER_STATE ≠ 0 then
      let cs := (chip.cc_state &&& (0xffffffff ^^^ CC_STATE_TOGSS_ROLE)) ||| CC_STATE_TOGSS_IS_DFP
      let chip := { chip with cc_state := cs }
      set_state chip ConnState.policy_src_send_caps
    else chip
  else chip

/-- Sink soft-reset accept flow, fusb302.c lines 2862-2885. -/
def fusb_state_snk_softreset (chip : Chip) : Chip :=
  let chip :=
    if chip.sub_state = 0 then
      { set_mesg chip CMT_ACCEPT CONTROLMESSAGE with
          tx_state := tx_idle, sub_state := chip.sub_state + 1 }
    else chip
  let (chip, tmp) := policy_send_data chip
  if tmp = tx_success then
    let chip := fusb_soft_reset_parameter chip
    let chip := { chip with timer_state := T_TYPEC_SINK_WAIT_CAP }
    set_state chip ConnState.policy_snk_wait_caps
  else if tmp = tx_failed then
    set_state chip ConnState.policy_snk_send_hardrst
  else chip

/-- Response phase of `fusb_state_snk_send_softreset`, fusb302.c lines
2910-2923. -/
def fusb_state_snk_send_softreset_tail (chip : Chip) (evt : Nat) : Chip :=
  if evt &&& EVENT_RX ≠ 0 then
    if PD_HEADER_CNT chip.rec_head = 0 ∧ PD_HEADER_TYPE chip.rec_head = CMT_ACCEPT then
      let chip := fusb_soft_reset_parameter chip
      let chip := { chip with timer_state := T_TYPEC_SINK_WAIT_CAP }
      set_state chip ConnState.policy_snk_wait_caps
    else chip
  else if evt &&& EVENT_TIMER_STATE ≠ 0 then
    set_state chip ConnState.policy_snk_send_hardrst
  else chip

/-- Sink soft-reset request sender, fusb302.c lines 2887-2925. -/
def fusb_state_snk_send_softreset (chip0 : Chip) (evt : Nat) : Chip :=
  if chip0.sub_state = 0 ∨ chip0.sub_state = 1 then
    let chip :=
      if chip0.sub_state = 0 then
        { set_mesg chip0 CMT_SOFTRESET CONTROLMESSAGE with
            tx_state := tx_idle, sub_state := chip0.sub_state + 1 }
      else chip0
    let (chip, tmp) := policy_send_data chip
    if tmp = tx_success then
      let chip := { chip with timer_state := T_SENDER_RESPONSE,
                              sub_state := chip.sub_state + 1 }
      if evt &&& FLAG_EVENT = 0 then chip
      else fusb_state_snk_send_softreset_tail chip evt
    else if tmp = tx_failed then
      set_state chip ConnState.policy_snk_send_hardrst
    else if evt &&& FLAG_EVENT = 0 then chip
    else fusb_state_snk_send_softreset_tail chip evt
  else fusb_state_snk_send_softreset_tail chip0 evt

/-- Detach detection on CC events, fusb302.c lines 2927-2965. -/
def fusb_try_detach (chip : Chip) (env : Env) : Chip :=
  if CC_STATE_ROLE chip = CC_STATE_TOGSS_IS_ACC then
    let s := tcpm_get_cc chip env
    if s.1 ≠ TYPEC_CC_VOLT_RA ∨ s.2 ≠ TYPEC_CC_VOLT_RA then
      set_state_unattached chip
    else chip
  else if CC_STATE_ROLE chip = CC_STATE_TOGSS_IS_UFP ∧
          chip.conn_state ≠ ConnState.policy_snk_transition_default ∧
          chip.conn_state ≠ ConnState.policy_src_prs_source_off ∧
          chip.conn_state ≠ ConnState.policy_snk_prs_send_swap ∧
          chip.conn_state ≠ ConnState.policy_snk_prs_assert_rp ∧
          chip.conn_state ≠ ConnState.policy_snk_prs_source_on ∧
          chip.conn_state ≠ ConnState.policy_snk_prs_transition_to_off then
    if ¬tcpm_check_vbus env then set_state_unattached chip else chip
  else if chip.conn_state ≠ ConnState.policy_src_transition_default ∧
          chip.conn_state ≠ ConnState.policy_src_prs_source_off ∧
          chip.conn_state ≠ ConnState.policy_snk_prs_source_on then
    let s := tcpm_get_cc chip env
    let c1 := if chip.cc_state &&& CC_STATE_TOGSS_CC2 ≠ 0 then s.2 else s.1
    if c1 = TYPEC_CC_VOLT_OPEN then set_state_unattached chip else chip
  else
    { chip with work_continue := chip.work_continue ||| EVENT_DELAY_CC }

/-! ## Event collection and the state-machine tick (fusb302.c lines
811-897, 2967-3200) -/

/-- Interrupt decoding, fusb302.c lines 811-879: translate the pending
interrupt bits into event-word bits and latch their side effects
(`cc_state` from a toggle done, `tx_state` from a transmit result, a
hard-reset restart).  `alert_retry` models the function-static `retry`
used for the HARDSENT double-reset. -/
def tcpc_alert (chip : Chip) (hw : HwEvents) : Chip × Nat :=
  let evt : Nat := 0
  let evt :=
    if hw.comp_chng ∧ CC_STATE_ROLE chip ≠ CC_STATE_TOGSS_IS_UFP ∧ hw.comp_val then
      evt ||| EVENT_CC
    else evt
  let evt :=
    if hw.vbusok ∧ chip.notify.is_cc_connected then evt ||| EVENT_CC else evt
  let (chip, evt) :=
    if hw.togdone then
      ({ chip with cc_state := set_cc_state hw.togss }, evt ||| EVENT_CC)
    else (chip, evt)
  let (chip, evt) :=
    if hw.txsent then
      ({ chip with tx_state := tx_success }, evt ||| EVENT_TX)
    else (chip, evt)
  let evt := if hw.gcrcsent then evt ||| EVENT_RX else evt
  let (chip, evt) :=
    if hw.hardrst then (pd_execute_hard_reset chip, evt ||| EVENT_REC_RESET)
    else (chip, evt)
  let (chip, evt) :=
    if hw.retryfail then
      ({ chip with tx_state := tx_failed }, evt ||| EVENT_TX)
    else (chip, evt)
  if hw.hardsent then
    if ¬chip.alert_retry then
      (pd_execute_hard_reset { chip with alert_retry := true }, evt)
    else
      ({ chip with alert_retry := false, tx_state := tx_success,
                   timer_state := T_DISABLED }, evt ||| EVENT_TX)
  else (chip, evt)

/-- Timer/work event merge, fusb302.c lines 881-897: a timer field at 0
(zeroed by the expired hrtimer) raises its event and parks the field at
`T_DISABLED`; pending `work_continue` bits are folded into the event word
and cleared. -/
def mux_alert (chip : Chip) : Chip × Nat :=
  let (chip, evt) :=
    if chip.timer_mux = 0 then
      ({ chip with timer_mux := T_DISABLED }, EVENT_TIMER_MUX)
    else (chip, 0)
  let (chip, evt) :=
    if chip.timer_state = 0 then
      ({ chip with timer_state := T_DISABLED }, evt ||| EVENT_TIMER_STATE)
    else (chip, evt)
  if chip.work_continue ≠ 0 then
    ({ chip with work_continue := 0 }, evt ||| chip.work_continue)
  else (chip, evt)

/-- Expiry action of the state timer, fusb302.c lines 3246-3268: the
hrtimer callback zeroes a running timer field (the following tick's
`mux_alert` turns the zero into an event). -/
def fusb_timer_handler_state (chip : Chip) : Chip :=
  if chip.timer_state ≠ T_DISABLED then { chip with timer_state := 0 } else chip

/-- Expiry action of the mux timer, fusb302.c lines 3246-3268. -/
def fusb_timer_handler_mux (chip : Chip) : Chip :=
  if chip.timer_mux ≠ T_DISABLED then { chip with timer_mux := 0 } else chip

/-- Receive phase of the tick, fusb302.c lines 2980-2988: decode the
FIFO (GoodCRC frames are skipped inside `tcpm_get_message`), latch the
frame, and route a SOFTRESET control message to the role-appropriate
soft-reset accept state ahead of the per-state dispatch. -/
def tick_rx_phase (chip : Chip) (env : Env) : Chip :=
  match tcpm_get_message env.fifo with
  | some f =>
    let chip := { chip with rec_head := f.head, rec_load := f.load }
    if PACKET_IS_CONTROL_MSG chip.rec_head CMT_SOFTRESET then
      if chip.notify.power_role ≠ 0 then
        set_state chip ConnState.policy_src_softrst
      else
        set_state chip ConnState.policy_snk_softrst
    else chip
  | none => chip

/-- Transmit-result phase of the tick, fusb302.c lines 2990-2993: a
confirmed-successful transmission is the only place `msg_id` is
incremented (32-bit wrap; the low 3 bits go into the next header). -/
def tx_event_update (chip : Chip) (evt : Nat) : Chip :=
  if evt &&& EVENT_TX ≠ 0 ∧ chip.tx_state = tx_success then
    { chip with msg_id := (chip.msg_id + 1) % U32_MOD }
  else chip

/-- Per-state dispatch of the tick, fusb302.c lines 2994-3188, including
the switch fall-throughs: `policy_src_send_caps` falls into
`policy_src_negotiate_cap` when it just latched a Request, which always
falls into `fusb_state_src_transition_supply`; `policy_snk_evaluate_caps`
falls into `fusb_state_snk_select_cap`. -/
def tick_dispatch (chip : Chip) (evt : Nat) (env : Env) : Chip :=
  match chip.conn_state with
  | ConnState.disabled => fusb_state_disabled chip evt
  | ConnState.error_recovery => set_state_unattached chip
  | ConnState.unattached => fusb_state_unattached chip evt env
  | ConnState.attach_wait_sink => fusb_state_attach_wait_sink chip evt env
  | ConnState.attach_wait_source => fusb_state_attach_wait_source chip evt env
  | ConnState.attached_source => fusb_state_attached_source chip evt
  | ConnState.attached_sink => fusb_state_attached_sink chip evt env
  | ConnState.attach_try_src => fusb_state_try_attach chip evt env ROLE_MODE_DFP
  | ConnState.attach_try_snk => fusb_state_try_attach chip evt env ROLE_MODE_UFP
  | ConnState.attach_wait_audio_acc => fusb_state_attach_wait_audio_acc chip evt env
  | ConnState.attached_audio_acc => fusb_state_attached_audio_acc chip evt
  | ConnState.policy_src_startup => fusb_state_src_startup chip evt
  | ConnState.policy_src_discovery => fusb_state_src_discovery chip evt
  | ConnState.policy_src_send_caps =>
    let chip := fusb_state_src_send_caps chip evt
    if chip.conn_state = ConnState.policy_src_negotiate_cap then
      fusb_state_src_transition_supply (fusb_state_src_negotiate_cap chip evt) evt
    else chip
  | ConnState.policy_src_negotiate_cap =>
    fusb_state_src_transition_supply (fusb_state_src_negotiate_cap chip evt) evt
  | ConnState.policy_src_transition_supply =>
    fusb_state_src_transition_supply chip evt
  | ConnState.policy_src_cap_response => fusb_state_src_cap_response chip evt
  | ConnState.policy_src_transition_default =>
    fusb_state_src_transition_default chip evt
  | ConnState.policy_src_ready => fusb_state_src_ready chip evt
  | ConnState.policy_src_get_sink_caps => fusb_state_src_get_sink_cap chip evt
  | ConnState.policy_src_send_hardrst => fusb_state_src_send_hardreset chip evt
  | ConnState.policy_src_send_softrst => fusb_state_src_send_softreset chip evt
  | ConnState.policy_src_softrst => fusb_state_src_softreset chip
  | ConnState.policy_snk_startup => fusb_state_snk_startup chip evt
  | ConnState.policy_snk_discovery => fusb_state_snk_discovery chip evt
  | ConnState.policy_snk_wait_caps => fusb_state_snk_wait_caps chip evt
  | ConnState.policy_snk_evaluate_caps =>
    fusb_state_snk_select_cap (fusb_state_snk_evaluate_caps chip evt env) evt
  | ConnState.policy_snk_select_cap => fusb_state_snk_select_cap chip evt
  | ConnState.policy_snk_transition_sink => fusb_state_snk_transition_sink chip evt
  | ConnState.policy_snk_transition_default =>
    fusb_state_snk_transition_default chip evt env
  | ConnState.policy_snk_ready => fusb_state_snk_ready chip evt
  | ConnState.policy_snk_send_hardrst => fusb_state_snk_send_hardreset chip evt
  | ConnState.policy_snk_send_softrst => fusb_state_snk_send_softreset chip evt
  | ConnState.policy_snk_softrst => fusb_state_snk_softreset chip
  | ConnState.policy_src_prs_evaluate => fusb_state_prs_evaluate chip evt
  | ConnState.policy_snk_prs_evaluate => fusb_state_prs_evaluate chip evt
  | ConnState.policy_snk_prs_accept => fusb_state_prs_accept chip evt
  | ConnState.policy_src_prs_accept => fusb_state_prs_accept chip evt
  | ConnState.policy_snk_prs_reject => fusb_state_prs_reject chip evt
  | ConnState.policy_src_prs_reject => fusb_state_prs_reject chip evt
  | ConnState.policy_vcs_ufp_reject => fusb_state_prs_reject chip evt
  | ConnState.policy_drs_dfp_reject => fusb_state_prs_reject chip evt
  | ConnState.policy_drs_ufp_reject => fusb_state_prs_reject chip evt
  | ConnState.policy_src_prs_transition_to_off =>
    fusb_state_src_prs_transition_to_off chip evt
  | ConnState.policy_src_prs_assert_rd => fusb_state_src_prs_assert_rd chip evt
  | ConnState.policy_src_prs_source_off => fusb_state_src_prs_source_off chip evt
  | ConnState.policy_snk_prs_send_swap => fusb_state_send_swap chip evt CMT_PR_SWAP
  | ConnState.policy_src_prs_send_swap => fusb_state_send_swap chip evt CMT_PR_SWAP
  | ConnState.policy_snk_prs_transition_to_off =>
    fusb_state_snk_prs_transition_to_off chip evt
  | ConnState.policy_snk_prs_assert_rp => fusb_state_snk_prs_assert_rp chip evt
  | ConnState.policy_snk_prs_source_on => fusb_state_snk_prs_source_on chip evt
  | ConnState.policy_vcs_ufp_evaluate_swap =>
    fusb_state_vcs_ufp_evaluate_swap chip evt
  | ConnState.policy_vcs_ufp_accept => fusb_state_vcs_ufp_accept chip evt
  | ConnState.policy_vcs_ufp_wait_for_dfp_vconn =>
    fusb_state_vcs_wait_for_vconn chip evt
  | ConnState.policy_vcs_dfp_wait_for_ufp_vconn =>
    fusb_state_vcs_wait_for_vconn chip evt
  | ConnState.policy_vcs_ufp_turn_off_vconn =>
    fusb_state_vcs_set_vconn chip evt false
  | ConnState.policy_vcs_dfp_turn_off_vconn =>
    fusb_state_vcs_set_vconn chip evt false
  | ConnState.policy_vcs_ufp_turn_on_vconn => fusb_state_vcs_set_vconn chip evt true
  | ConnState.policy_vcs_dfp_turn_on_vconn => fusb_state_vcs_set_vconn chip evt true
  | ConnState.policy_vcs_ufp_send_ps_rdy => fusb_state_vcs_send_ps_rdy chip evt
  | ConnState.policy_vcs_dfp_send_ps_rdy => fusb_state_vcs_send_ps_rdy chip evt
  | ConnState.policy_vcs_dfp_send_swap => fusb_state_send_swap chip evt CMT_VCONN_SWAP
  | ConnState.policy_drs_ufp_evaluate => fusb_state_drs_evaluate chip evt
  | ConnState.policy_drs_dfp_evaluate => fusb_state_drs_evaluate chip evt
  | ConnState.policy_drs_dfp_accept => fusb_state_drs_send_accept chip evt
  | ConnState.policy_drs_ufp_accept => fusb_state_drs_send_accept chip evt
  | ConnState.policy_drs_dfp_change => fusb_state_drs_role_change chip evt
  | ConnState.policy_drs_ufp_change => fusb_state_drs_role_change chip evt
  | ConnState.policy_drs_ufp_send_swap => fusb_state_send_swap chip evt CMT_DR_SWAP
  | ConnState.policy_drs_dfp_send_swap => fusb_state_send_swap chip evt CMT_DR_SWAP

/-- One state-machine tick, fusb302.c lines 2967-3200
(`state_machine_typec`): collect hardware and timer/work events; with no
event pending do nothing; otherwise run detach detection on CC events,
the receive phase (GoodCRC skip and the global SOFTRESET check), the
`msg_id` update on a confirmed transmit, and finally the per-state
dispatch. -/
def state_machine_typec (chip : Chip) (hw : HwEvents) (env : Env) : Chip :=
  let (chip, evt) := tcpc_alert chip hw
  let (chip, evt2) := mux_alert chip
  let evt := evt ||| evt2
  if evt = 0 then chip
  else
    let chip :=
      if chip.notify.is_cc_connected ∧ evt &&& (EVENT_CC ||| EVENT_DELAY_CC) ≠ 0 then
        fusb_try_detach chip env
      else chip
    let chip := if evt &&& EVENT_RX ≠ 0 then tick_rx_phase chip env else chip
    let chip := tx_event_update chip evt
    tick_dispatch chip evt env

/-! ## Verification

Shared helper definitions and lemmas for the claim theorems. -/

/-- Candidate set of `pd_dfp_dp_get_pin_assignment` after the
multi-function mask (fusb302.c lines 1020-1022). -/
def dp_pin_mf_filter (caps status : Nat) : Nat :=
  if PD_VDO_DPSTS_MF_PREF status = 0 then
    PD_DP_PIN_CAPS caps &&& (0xffffffff ^^^ MODE_DP_PIN_MF_MASK)
  else PD_DP_PIN_CAPS caps

/-- Candidate set after the multi-function and signaling-generation masks
(fusb302.c lines 1018-1028). -/
def dp_pin_prefilter (caps status : Nat) : Nat :=
  if PD_DP_SIGNAL_GEN2 caps ≠ 0 then
    dp_pin_mf_filter caps status &&& (0xffffffff ^^^ MODE_DP_PIN_DP_MASK)
  else
    dp_pin_mf_filter caps status &&& (0xffffffff ^^^ MODE_DP_PIN_BR2_MASK)

/-- Final candidate set of `pd_dfp_dp_get_pin_assignment`, after the
C/D-over-E/F preference (fusb302.c lines 1030-1032). -/
def dp_pin_candidates (caps status : Nat) : Nat :=
  if dp_pin_prefilter caps status &&& (MODE_DP_PIN_C ||| MODE_DP_PIN_D) ≠ 0 then
    dp_pin_prefilter caps status &&& (0xffffffff ^^^ (MODE_DP_PIN_E ||| MODE_DP_PIN_F))
  else dp_pin_prefilter caps status

lemma pin_assignment_characterization (caps status : Nat) :
    pd_dfp_dp_get_pin_assignment caps status =
      if dp_pin_candidates caps status = 0 then 0
      else highestBit (dp_pin_candidates caps status) := rfl

lemma and_chain2 (a b m : Nat) (h : b &&& m = 0) : (a &&& b) &&& m = 0 := by
  rw [Nat.and_assoc, h, Nat.and_zero]

lemma and_chain3 (a b c m : Nat) (h : b &&& (c &&& m) = 0) :
    ((a &&& b) &&& c) &&& m = 0 := by
  rw [Nat.and_assoc, Nat.and_assoc, h, Nat.and_zero]

lemma and_chain4 (a b c d m : Nat) (h : b &&& (c &&& (d &&& m)) = 0) :
    (((a &&& b) &&& c) &&& d) &&& m = 0 := by
  rw [Nat.and_assoc, Nat.and_assoc, Nat.and_assoc, h, Nat.and_zero]

lemma PD_DP_PIN_CAPS_le (caps : Nat) : PD_DP_PIN_CAPS caps ≤ 63 := by
  unfold PD_DP_PIN_CAPS
  split <;> exact Nat.and_le_right

lemma dp_pin_mf_filter_le (caps status : Nat) : dp_pin_mf_filter caps status ≤ 63 := by
  unfold dp_pin_mf_filter
  have h := PD_DP_PIN_CAPS_le caps
  split
  · exact Nat.le_trans Nat.and_le_left h
  · exact h

lemma dp_pin_prefilter_le (caps status : Nat) : dp_pin_prefilter caps status ≤ 63 := by
  unfold dp_pin_prefilter
  have h := dp_pin_mf_filter_le caps status
  split <;> exact Nat.le_trans Nat.and_le_left h

lemma dp_pin_candidates_le (caps status : Nat) : dp_pin_candidates caps status ≤ 63 := by
  unfold dp_pin_candidates
  have h := dp_pin_prefilter_le caps status
  split
  · exact Nat.le_trans Nat.and_le_left h
  · exact h

/-- Bounded fact: the highest-set-bit extraction preserves any disjoint
mask, for 6-bit operands. -/
lemma highbit_and_eq_zero :
    ∀ p < 64, ∀ m < 64, p &&& m = 0 →
      (if p = 0 then 0 else highestBit p) &&& m = 0 := by decide

/-- Bounded fact: `highestBit` returns the highest set bit of a 6-bit
value. -/
lemma highestBit_spec :
    ∀ p < 64, p ≠ 0 →
      ∃ j < 6, highestBit p = 2 ^ j ∧ Nat.testBit p j = true ∧
        ∀ i < 6, Nat.testBit p i = true → i ≤ j := by decide

/-- Bounded fact: `highestBit` of a nonzero 6-bit value is nonzero. -/
lemma highestBit_ne_zero : ∀ p < 64, p ≠ 0 → highestBit p ≠ 0 := by decide

lemma and_drop_mid (a b m : Nat) (h : a &&& m = 0) : (a &&& b) &&& m = 0 := by
  rw [Nat.and_assoc, Nat.and_comm b m, ← Nat.and_assoc, h, Nat.zero_and]

lemma dp_pin_prefilter_mf (caps status : Nat) (h : PD_VDO_DPSTS_MF_PREF status = 0) :
    dp_pin_prefilter caps status &&& MODE_DP_PIN_MF_MASK = 0 := by
  unfold dp_pin_prefilter dp_pin_mf_filter
  rw [if_pos h]
  split
  · exact and_chain3 _ _ _ _ (by decide)
  · exact and_chain3 _ _ _ _ (by decide)

lemma dp_pin_prefilter_gen2 (caps status : Nat) (h : PD_DP_SIGNAL_GEN2 caps ≠ 0) :
    dp_pin_prefilter caps status &&& MODE_DP_PIN_DP_MASK = 0 := by
  unfold dp_pin_prefilter
  rw [if_pos h]
  exact and_chain2 _ _ _ (by decide)

lemma dp_pin_prefilter_br2 (caps status : Nat) (h : PD_DP_SIGNAL_GEN2 caps = 0) :
    dp_pin_prefilter caps status &&& MODE_DP_PIN_BR2_MASK = 0 := by
  unfold dp_pin_prefilter
  rw [if_neg (by simp [h])]
  exact and_chain2 _ _ _ (by decide)

lemma dp_pin_candidates_sub (caps status m : Nat)
    (h : dp_pin_prefilter caps status &&& m = 0) :
    dp_pin_candidates caps status &&& m = 0 := by
  unfold dp_pin_candidates
  split
  · exact and_drop_mid _ _ _ h
  · exact h

lemma pin_result_and_eq_zero (caps status m : Nat) (hm : m < 64)
    (h : dp_pin_candidates caps status &&& m = 0) :
    pd_dfp_dp_get_pin_assignment caps status &&& m = 0 := by
  rw [pin_assignment_characterization]
  exact highbit_and_eq_zero _ (by have := dp_pin_candidates_le caps status; omega) m hm h

/-- C5: `pd_dfp_dp_get_pin_assignment` masks the multi-function configs
B/D/F when the UFP did not assert multi-function preference, masks the
pin configs of the signaling generation not in use, prefers C/D over E/F
when C or D survives the first masks, returns the highest-numbered
remaining candidate bit, returns 0 exactly when no candidate remains,
and on pin caps bitmap 0b000110 (B and C) with multi-function-preferred
false returns pin C (0b000100). -/
theorem C5_pin_assignment_selection :
    (∀ caps status, PD_VDO_DPSTS_MF_PREF status = 0 →
        pd_dfp_dp_get_pin_assignment caps status &&& MODE_DP_PIN_MF_MASK = 0) ∧
    (∀ caps status, PD_DP_SIGNAL_GEN2 caps ≠ 0 →
        pd_dfp_dp_get_pin_assignment caps status &&& MODE_DP_PIN_DP_MASK = 0) ∧
    (∀ caps status, PD_DP_SIGNAL_GEN2 caps = 0 →
        pd_dfp_dp_get_pin_assignment caps status &&& MODE_DP_PIN_BR2_MASK = 0) ∧
    (∀ caps status,
        dp_pin_prefilter caps status &&& (MODE_DP_PIN_C ||| MODE_DP_PIN_D) ≠ 0 →
        pd_dfp_dp_get_pin_assignment caps status &&&
          (MODE_DP_PIN_E ||| MODE_DP_PIN_F) = 0) ∧
    (∀ caps status, dp_pin_candidates caps status ≠ 0 →
        ∃ j, pd_dfp_dp_get_pin_assignment caps status = 2 ^ j ∧
          Nat.testBit (dp_pin_candidates caps status) j = true ∧
          ∀ i, Nat.testBit (dp_pin_candidates caps status) i = true → i ≤ j) ∧
    (∀ caps status,
        pd_dfp_dp_get_pin_assignment caps status = 0 ↔
        dp_pin_candidates caps status = 0) ∧
    pd_dfp_dp_get_pin_assignment ((1 <<< 6) ||| (0b000110 <<< 16)) 0 = MODE_DP_PIN_C := by
  refine ⟨?_, ?_, ?_, ?_, ?_, ?_, ?_⟩
  · intro caps status h
    exact pin_result_and_eq_zero caps status _ (by decide)
      (dp_pin_candidates_sub caps status _ (dp_pin_prefilter_mf caps status h))
  · intro caps status h
    exact pin_result_and_eq_zero caps status _ (by decide)
      (dp_pin_candidates_sub caps status _ (dp_pin_prefilter_gen2 caps status h))
  · intro caps status h
    exact pin_result_and_eq_zero caps status _ (by decide)
      (dp_pin_candidates_sub caps status _ (dp_pin_prefilter_br2 caps status h))
  · intro caps status h
    apply pin_result_and_eq_zero caps status _ (by decide)
    unfold dp_pin_candidates
    rw [if_pos h]
    exact and_chain2 _ _ _ (by decide)
  · intro caps status h
    have hlt : dp_pin_candidates caps status < 64 := by
      have := dp_pin_candidates_le caps status; omega
    obtain ⟨j, hj6, hbit, htest, hmax⟩ := highestBit_spec _ hlt h
    refine ⟨j, ?_, htest, ?_⟩
    · rw [pin_assignment_characterization, if_neg h, hbit]
    · intro i hi
      by_cases hi6 : i < 6
      · exact hmax i hi6 hi
      · exfalso
        have h64 : (64 : Nat) ≤ 2 ^ i := by
          have h2 : (2 : Nat) ^ 6 ≤ 2 ^ i := Nat.pow_le_pow_right (by omega) (by omega)
          simpa using h2
        have hfalse : Nat.testBit (dp_pin_candidates caps status) i = false :=
          Nat.testBit_lt_two_pow (lt_of_lt_of_le hlt h64)
        rw [hi] at hfalse
        exact Bool.noConfusion hfalse
  · intro caps status
    constructor
    · intro h
      by_contra hne
      have hlt : dp_pin_candidates caps status < 64 := by
        have := dp_pin_candidates_le caps status; omega
      have := highestBit_ne_zero _ hlt hne
      rw [pin_assignment_characterization, if_neg hne] at h
      exact this h
    · intro h
      rw [pin_assignment_characterization, if_pos h]
  · rfl

/-- Witness for C5: the masking conjuncts applied at the concrete input
of the spec's example. -/
theorem C5_pin_assignment_selection_witness :
    pd_dfp_dp_get_pin_assignment ((1 <<< 6) ||| (0b000110 <<< 16)) 0 &&&
      MODE_DP_PIN_MF_MASK = 0 ∧
    pd_dfp_dp_get_pin_assignment ((1 <<< 6) ||| (0b000110 <<< 16)) 0 &&&
      MODE_DP_PIN_BR2_MASK = 0 ∧
    (∃ j, pd_dfp_dp_get_pin_assignment ((1 <<< 6) ||| (0b000110 <<< 16)) 0 = 2 ^ j ∧
      Nat.testBit (dp_pin_candidates ((1 <<< 6) ||| (0b000110 <<< 16)) 0) j = true ∧
      ∀ i, Nat.testBit (dp_pin_candidates ((1 <<< 6) ||| (0b000110 <<< 16)) 0) i = true →
        i ≤ j) :=
  ⟨C5_pin_assignment_selection.1 _ 0 (by decide),
   C5_pin_assignment_selection.2.2.1 _ 0 (by decide),
   C5_pin_assignment_selection.2.2.2.2.1 _ 0 (by decide)⟩

/-- C3: for a receive FIFO holding any number of GoodCRC control frames
followed by one non-GoodCRC frame, `tcpm_get_message` yields exactly that
frame as the one observable received message, and its result is never a
GoodCRC frame. -/
theorem C3_goodcrc_transparency :
    (∀ (gcs : List PdFrame) (m : PdFrame),
        (∀ f ∈ gcs, PACKET_IS_CONTROL_MSG f.head CMT_GOODCRC) →
        ¬PACKET_IS_CONTROL_MSG m.head CMT_GOODCRC →
        tcpm_get_message (gcs ++ [m]) = some m) ∧
    (∀ (fifo : List PdFrame) (f : PdFrame),
        tcpm_get_message fifo = some f →
        ¬PACKET_IS_CONTROL_MSG f.head CMT_GOODCRC) := by
  constructor
  · intro gcs m hgcs hm
    induction gcs with
    | nil => simpa [tcpm_get_message] using hm
    | cons g gs ih =>
      have hg : PACKET_IS_CONTROL_MSG g.head CMT_GOODCRC := hgcs g (by simp)
      simp only [List.cons_append, tcpm_get_message, if_pos hg]
      exact ih (fun f hf => hgcs f (by simp [hf]))
  · intro fifo
    induction fifo with
    | nil => intro f h; simp [tcpm_get_message] at h
    | cons g gs ih =>
      intro f h
      by_cases hg : PACKET_IS_CONTROL_MSG g.head CMT_GOODCRC
      · rw [tcpm_get_message, if_pos hg] at h
        exact ih f h
      · rw [tcpm_get_message, if_neg hg] at h
        cases h
        exact hg

/-- Witness for C3: two GoodCRC frames ahead of a one-object Request
frame; the decode returns exactly the Request. -/
theorem C3_goodcrc_transparency_witness :
    tcpm_get_message
      [⟨CMT_GOODCRC, []⟩, ⟨CMT_GOODCRC, []⟩,
       ⟨(1 <<< 12) ||| DMT_REQUEST, [0x13000000]⟩] =
      some ⟨(1 <<< 12) ||| DMT_REQUEST, [0x13000000]⟩ :=
  C3_goodcrc_transparency.1
    [⟨CMT_GOODCRC, []⟩, ⟨CMT_GOODCRC, []⟩]
    ⟨(1 <<< 12) ||| DMT_REQUEST, [0x13000000]⟩
    (by decide) (by decide)

/-- Convenience base port context used by the concrete scenarios:
counters and latches zeroed, timers parked at `T_DISABLED`, dual-role
configuration with one advertised source capability. -/
def defaultChip : Chip :=
  { role := ROLE_MODE_DRP, try_role := ROLE_MODE_DFP, try_role_complete := false,
    conn_state := ConnState.unattached, sub_state := 0, val_tmp := 0,
    work_continue := 0, cc_state := 0, cc1 := 0, cc2 := 0, cc_polarity := 0,
    debounce_cnt := 0, msg_id := 0, rec_head := 0, rec_load := [],
    send_head := 0, send_load := [], tx_state := 0,
    timer_state := T_DISABLED, timer_mux := T_DISABLED,
    hardrst_count := 0, caps_counter := 0, n_caps_used := 1,
    source_power_supply := [100], source_max_current := [50],
    pd_cap_info := ⟨0, 1, 0, 0, 1, 1, 0⟩, is_pd_support := false,
    vbus_begin := false, vconn_enabled := false, vconn_supported := false,
    vdm_state := VDM_STATE_DISCOVERY_ID, vdm_substate := 0, vdm_send_state := 0,
    vdm_id := 0, vdm_svid := List.replicate 12 0, vdm_svid_num := 0,
    partner_cap := List.replicate 8 0, pos_power := 0, pd_output_vol := 0,
    pd_output_cur := 0, notify := NotifyInfo.zero, notify_cmp := NotifyInfo.zero,
    alert_retry := false, cc_meas_high := 0x26, cc_meas_low := 0x5 }

/-- Quiet environment: VBUS absent, both CC lines open, empty FIFO, no
charger device. -/
def quietEnv : Env :=
  { vbus := false, cc_pull_up1 := TYPEC_CC_VOLT_OPEN,
    cc_pull_up2 := TYPEC_CC_VOLT_OPEN, cc_pull_down1 := TYPEC_CC_VOLT_OPEN,
    cc_pull_down2 := TYPEC_CC_VOLT_OPEN, fifo := [], charge_dev := none }

/-- C9: `platform_fusb_notify` publishes to the observer exactly when the
computed snapshot differs (bit-exact structure comparison) from the
previously published shadow copy `notify_cmp`; an identical snapshot is
never re-published; after a publish the shadow copy equals the published
snapshot. -/
theorem C9_notify_publish (chip : Chip) :
    ((platform_fusb_notify chip).2 = true ↔
      computed_snapshot chip ≠ chip.notify_cmp) ∧
    ((platform_fusb_notify chip).2 = true →
      (platform_fusb_notify chip).1.notify_cmp = (platform_fusb_notify chip).1.notify) ∧
    ((platform_fusb_notify chip).2 = false →
      (platform_fusb_notify chip).1.notify_cmp = chip.notify_cmp ∧
      (platform_fusb_notify chip).1.notify = computed_snapshot chip) := by
  unfold platform_fusb_notify
  by_cases h : computed_snapshot chip ≠ chip.notify_cmp
  · simp [h]
  · simp [h]

/-- Witness for C9: a port whose snapshot gained the PD-connected flag
publishes, and afterwards the shadow copy equals the published
snapshot. -/
theorem C9_notify_publish_witness :
    (platform_fusb_notify
        { defaultChip with notify := { NotifyInfo.zero with is_pd_connected := true } }).2 =
      true ∧
    (platform_fusb_notify
        { defaultChip with notify := { NotifyInfo.zero with is_pd_connected := true } }).1.notify_cmp =
      (platform_fusb_notify
        { defaultChip with notify := { NotifyInfo.zero with is_pd_connected := true } }).1.notify := by
  have h := C9_notify_publish
    { defaultChip with notify := { NotifyInfo.zero with is_pd_connected := true } }
  have hpub := h.1.mpr (by decide)
  exact ⟨hpub, h.2.1 hpub⟩

/-- One transmit-completion tick fragment: the hardware reports either
TXSENT (confirmed success) or RETRYFAIL (hardware retries exhausted);
`tcpc_alert` latches `tx_state` and raises `EVENT_TX`, after which the
tick runs the `msg_id` update of fusb302.c lines 2990-2993. -/
def tx_complete (chip : Chip) (ok : Bool) : Chip :=
  let hw := { HwEvents.silent with txsent := ok, retryfail := !ok }
  let (chip, evt) := tcpc_alert chip hw
  tx_event_update chip evt

lemma tx_complete_true_msg_id (chip : Chip) :
    (tx_complete chip true).msg_id = (chip.msg_id + 1) % U32_MOD := by
  unfold tx_complete tcpc_alert tx_event_update HwEvents.silent
  simp [EVENT_TX, tx_success, CC_STATE_ROLE]

lemma tx_complete_false_msg_id (chip : Chip) :
    (tx_complete chip false).msg_id = chip.msg_id := by
  unfold tx_complete tcpc_alert tx_event_update HwEvents.silent
  simp [EVENT_TX, tx_success, tx_failed, CC_STATE_ROLE]

/-- C2: over any sequence of transmit completions, `msg_id` advances by
exactly the number of confirmed-successful transmissions (32-bit wrap),
so its 3-bit value advances by N mod 8 over N consecutive successes, and
a failed transmission never increments it. -/
theorem C2_msg_id_increment :
    (∀ (chip : Chip) (outcomes : List Bool), chip.msg_id < U32_MOD →
        (outcomes.foldl tx_complete chip).msg_id =
          (chip.msg_id + outcomes.count true) % U32_MOD) ∧
    (∀ (chip : Chip) (n : Nat), chip.msg_id < U32_MOD →
        ((List.replicate n true).foldl tx_complete chip).msg_id % 8 =
          (chip.msg_id + n) % 8) ∧
    (∀ chip : Chip, (tx_complete chip false).msg_id = chip.msg_id) ∧
    (∀ chip : Chip, (tx_complete chip true).msg_id = (chip.msg_id + 1) % U32_MOD) := by
  have hfold : ∀ (outcomes : List Bool) (chip : Chip), chip.msg_id < U32_MOD →
      (outcomes.foldl tx_complete chip).msg_id =
        (chip.msg_id + outcomes.count true) % U32_MOD := by
    intro outcomes
    induction outcomes with
    | nil =>
      intro chip h
      simpa using (Nat.mod_eq_of_lt h).symm
    | cons o os ih =>
      intro chip h
      cases o with
      | true =>
        have hlt : (tx_complete chip true).msg_id < U32_MOD := by
          rw [tx_complete_true_msg_id]
          exact Nat.mod_lt _ (by norm_num [U32_MOD])
        have hrec := ih (tx_complete chip true) hlt
        rw [List.foldl_cons, hrec, tx_complete_true_msg_id, Nat.mod_add_mod]
        have harith : chip.msg_id + 1 + os.count true =
            chip.msg_id + (os.count true + 1) := by omega
        simp [List.count_cons, harith]
      | false =>
        have hrec := ih (tx_complete chip false)
          (by rw [tx_complete_false_msg_id]; exact h)
        rw [List.foldl_cons, hrec, tx_complete_false_msg_id]
        simp [List.count_cons]
  refine ⟨fun chip outcomes h => hfold outcomes chip h, ?_, 
          tx_complete_false_msg_id, tx_complete_true_msg_id⟩
  intro chip n h
  rw [hfold _ chip h]
  have hdvd : (8 : Nat) ∣ U32_MOD := by norm_num [U32_MOD]
  rw [Nat.mod_mod_of_dvd _ hdvd]
  simp

/-- Witness for C2: three completions, two successful and one failed,
advance `msg_id` from 0 to 2. -/
theorem C2_msg_id_increment_witness :
    ([true, false, true].foldl tx_complete defaultChip).msg_id =
      (defaultChip.msg_id + [true, false, true].count true) % U32_MOD :=
  C2_msg_id_increment.1 defaultChip [true, false, true] (by decide)

lemma tcpc_alert_silent (chip : Chip) : tcpc_alert chip HwEvents.silent = (chip, 0) := rfl

lemma mux_alert_wc (chip : Chip) (hts : chip.timer_state ≠ 0) (htm : chip.timer_mux ≠ 0)
    (hwc : chip.work_continue ≠ 0) :
    mux_alert chip = ({ chip with work_continue := 0 }, chip.work_continue) := by
  simp only [mux_alert]
  simp [htm, hts, hwc]

/-- C7: on a tick in `policy_src_negotiate_cap`, the machine moves to
`policy_src_transition_supply` exactly when the requested capability
index (bits 30:28 of the first received data object) is within the
advertised count `n_caps_used`, and to the `policy_src_cap_response`
reject path otherwise. -/
theorem C7_negotiate_cap_accept_iff (chip : Chip) (env : Env)
    (hstate : chip.conn_state = ConnState.policy_src_negotiate_cap)
    (hwc : chip.work_continue = EVENT_WORK_CONTINUE)
    (hts : chip.timer_state ≠ 0) (htm : chip.timer_mux ≠ 0) :
    (state_machine_typec chip HwEvents.silent env).conn_state =
      (if (chip.rec_load.getD 0 0 >>> 28) &&& 0x07 > chip.n_caps_used
       then ConnState.policy_src_cap_response
       else ConnState.policy_src_transition_supply) ∧
    ((state_machine_typec chip HwEvents.silent env).conn_state =
        ConnState.policy_src_transition_supply ↔
      (chip.rec_load.getD 0 0 >>> 28) &&& 0x07 ≤ chip.n_caps_used) := by
  have hmain : (state_machine_typec chip HwEvents.silent env).conn_state =
      (if (chip.rec_load.getD 0 0 >>> 28) &&& 0x07 > chip.n_caps_used
       then ConnState.policy_src_cap_response
       else ConnState.policy_src_transition_supply) := by
    unfold state_machine_typec
    rw [tcpc_alert_silent]
    dsimp only
    rw [mux_alert_wc chip hts htm (by rw [hwc]; decide)]
    dsimp only
    rw [hwc]
    simp only [EVENT_WORK_CONTINUE, EVENT_CC, EVENT_DELAY_CC, EVENT_RX, EVENT_TX,
      Nat.zero_or, tx_event_update,
      (show (32:Nat) &&& 4 = 0 by decide), (show (32:Nat) &&& 2 = 0 by decide),
      (show (32:Nat) &&& (1 ||| 256) = 0 by decide), (show ¬(32:Nat) = 0 by decide)]
    norm_num
    simp only [tick_dispatch, hstate]
    by_cases hidx : (chip.rec_load.getD 0 0 >>> 28) &&& 0x07 > chip.n_caps_used
    · have hidx2 : chip.n_caps_used < chip.rec_load[0]?.getD 0 >>> 28 &&& 7 := by
        simpa [List.getD] using hidx
      simp [hidx2, fusb_state_src_negotiate_cap, fusb_state_src_transition_supply,
        set_state, set_mesg, policy_send_data, CONTROLMESSAGE, tx_idle, tx_busy,
        tx_success, tx_failed, CMT_ACCEPT, List.getD]
    · have hidx2 : ¬chip.n_caps_used < chip.rec_load[0]?.getD 0 >>> 28 &&& 7 := by
        simpa [List.getD] using hidx
      simp [hidx2, fusb_state_src_negotiate_cap, fusb_state_src_transition_supply,
        set_state, set_mesg, policy_send_data, CONTROLMESSAGE, tx_idle, tx_busy,
        tx_success, tx_failed, CMT_ACCEPT, List.getD]
  refine ⟨hmain, ?_⟩
  rw [hmain]
  by_cases hidx : (chip.rec_load.getD 0 0 >>> 28) &&& 0x07 > chip.n_caps_used
  · rw [if_pos hidx]
    constructor
    · intro h; exact absurd h (by decide)
    · intro h; omega
  · rw [if_neg hidx]
    constructor
    · intro _; omega
    · intro _; rfl

/-- Scenario port for the C7 witness: negotiating a Request whose object
position 1 is within the single advertised capability. -/
def c7_chip : Chip :=
  { defaultChip with conn_state := ConnState.policy_src_negotiate_cap,
                     work_continue := EVENT_WORK_CONTINUE,
                     rec_head := (1 <<< 12) ||| DMT_REQUEST,
                     rec_load := [0x13000000] }

/-- Witness for C7: the in-range Request is accepted into the supply
transition. -/
theorem C7_negotiate_cap_accept_iff_witness :
    (state_machine_typec c7_chip HwEvents.silent quietEnv).conn_state =
      ConnState.policy_src_transition_supply :=
  (C7_negotiate_cap_accept_iff c7_chip quietEnv rfl rfl (by decide) (by decide)).2.mpr
    (by decide)

lemma tcpc_alert_gcrc (chip : Chip) :
    tcpc_alert chip { HwEvents.silent with gcrcsent := true } = (chip, EVENT_RX) := by
  unfold tcpc_alert HwEvents.silent
  simp [EVENT_RX, CC_STATE_ROLE]

lemma mux_alert_idle (chip : Chip) (hts : chip.timer_state ≠ 0)
    (htm : chip.timer_mux ≠ 0) (hwc : chip.work_continue = 0) :
    mux_alert chip = (chip, 0) := by
  simp only [mux_alert]
  simp [htm, hts, hwc]

/-- PD-connected states of the policy engine (spec section 4.3): every
`policy_*` state of the dispatch switch. -/
def pdConnectedStates : List ConnState :=
  [ConnState.policy_src_startup, ConnState.policy_src_discovery,
   ConnState.policy_src_send_caps, ConnState.policy_src_negotiate_cap,
   ConnState.policy_src_transition_supply, ConnState.policy_src_cap_response,
   ConnState.policy_src_transition_default, ConnState.policy_src_ready,
   ConnState.policy_src_get_sink_caps, ConnState.policy_src_send_hardrst,
   ConnState.policy_src_send_softrst, ConnState.policy_src_softrst,
   ConnState.policy_snk_startup, ConnState.policy_snk_discovery,
   ConnState.policy_snk_wait_caps, ConnState.policy_snk_evaluate_caps,
   ConnState.policy_snk_select_cap, ConnState.policy_snk_transition_sink,
   ConnState.policy_snk_transition_default, ConnState.policy_snk_ready,
   ConnState.policy_snk_send_hardrst, ConnState.policy_snk_send_softrst,
   ConnState.policy_snk_softrst, ConnState.policy_src_prs_evaluate,
   ConnState.policy_snk_prs_evaluate, ConnState.policy_snk_prs_accept,
   ConnState.policy_src_prs_accept, ConnState.policy_snk_prs_reject,
   ConnState.policy_src_prs_reject, ConnState.policy_vcs_ufp_reject,
   ConnState.policy_drs_dfp_reject, ConnState.policy_drs_ufp_reject,
   ConnState.policy_src_prs_transition_to_off, ConnState.policy_src_prs_assert_rd,
   ConnState.policy_src_prs_source_off, ConnState.policy_snk_prs_send_swap,
   ConnState.policy_src_prs_send_swap, ConnState.policy_snk_prs_transition_to_off,
   ConnState.policy_snk_prs_assert_rp, ConnState.policy_snk_prs_source_on,
   ConnState.policy_vcs_ufp_evaluate_swap, ConnState.policy_vcs_ufp_accept,
   ConnState.policy_vcs_ufp_wait_for_dfp_vconn,
   ConnState.policy_vcs_dfp_wait_for_ufp_vconn,
   ConnState.policy_vcs_ufp_turn_off_vconn, ConnState.policy_vcs_dfp_turn_off_vconn,
   ConnState.policy_vcs_ufp_turn_on_vconn, ConnState.policy_vcs_dfp_turn_on_vconn,
   ConnState.policy_vcs_ufp_send_ps_rdy, ConnState.policy_vcs_dfp_send_ps_rdy,
   ConnState.policy_vcs_dfp_send_swap, ConnState.policy_drs_ufp_evaluate,
   ConnState.policy_drs_dfp_evaluate, ConnState.policy_drs_dfp_accept,
   ConnState.policy_drs_ufp_accept, ConnState.policy_drs_dfp_change,
   ConnState.policy_drs_ufp_change, ConnState.policy_drs_ufp_send_swap,
   ConnState.policy_drs_dfp_send_swap]

/-- C6: on any tick whose received message is a SOFTRESET control frame,
a port in any PD-connected state and with any `sub_state` ends the tick
in the role-appropriate soft-reset accept state; the receive phase
(`tick_rx_phase`, which runs once per tick ahead of the per-state
dispatch) already performs that transition. -/
theorem C6_softreset_universality (chip : Chip) (env : Env) (f : PdFrame)
    (_hconn : chip.conn_state ∈ pdConnectedStates)
    (hwc : chip.work_continue = 0) (hts : chip.timer_state ≠ 0)
    (htm : chip.timer_mux ≠ 0)
    (hfifo : tcpm_get_message env.fifo = some f)
    (hsoft : PACKET_IS_CONTROL_MSG f.head CMT_SOFTRESET) :
    (state_machine_typec chip { HwEvents.silent with gcrcsent := true } env).conn_state =
      (if chip.notify.power_role ≠ 0 then ConnState.policy_src_softrst
       else ConnState.policy_snk_softrst) ∧
    (tick_rx_phase chip env).conn_state =
      (if chip.notify.power_role ≠ 0 then ConnState.policy_src_softrst
       else ConnState.policy_snk_softrst) := by
  have hrx : ∀ c : Chip, c.rec_head = chip.rec_head → c.notify = chip.notify →
      c.conn_state = chip.conn_state → c.sub_state = chip.sub_state →
      (tick_rx_phase c env).conn_state =
        (if chip.notify.power_role ≠ 0 then ConnState.policy_src_softrst
         else ConnState.policy_snk_softrst) := by
    intro c _ hn _ _
    unfold tick_rx_phase
    rw [hfifo]
    dsimp only
    rw [if_pos (by simpa using hsoft)]
    by_cases hrole : chip.notify.power_role ≠ 0
    · simp [set_state, hn, hrole]
    · push_neg at hrole
      simp [set_state, hn, hrole]
  refine ⟨?_, hrx chip rfl rfl rfl rfl⟩
  unfold state_machine_typec
  rw [tcpc_alert_gcrc]
  dsimp only
  rw [mux_alert_idle chip hts htm hwc]
  dsimp only
  simp only [EVENT_RX, EVENT_CC, EVENT_DELAY_CC, EVENT_TX, Nat.or_zero,
    tx_event_update,
    (show (2:Nat) &&& 4 = 0 by decide), (show (2:Nat) &&& 2 = 2 by decide),
    (show (2:Nat) &&& (1 ||| 256) = 0 by decide), (show ¬(2:Nat) = 0 by decide)]
  norm_num
  unfold tick_rx_phase
  rw [hfifo]
  dsimp only
  rw [if_pos (by simpa using hsoft)]
  by_cases hrole : chip.notify.power_role ≠ 0
  · simp [hrole, tick_dispatch, set_state, fusb_state_src_softreset, set_mesg,
      policy_send_data, CONTROLMESSAGE, tx_idle, tx_busy, tx_success, tx_failed,
      CMT_ACCEPT]
  · push_neg at hrole
    simp [hrole, tick_dispatch, set_state, fusb_state_snk_softreset, set_mesg,
      policy_send_data, CONTROLMESSAGE, tx_idle, tx_busy, tx_success, tx_failed,
      CMT_ACCEPT]

/-- Scenario port for the C6 witness: a source negotiating capabilities
when a SOFTRESET arrives. -/
def c6_chip : Chip :=
  { defaultChip with conn_state := ConnState.policy_src_negotiate_cap,
                     sub_state := 1,
                     notify := { NotifyInfo.zero with power_role := POWER_ROLE_SOURCE } }

/-- Environment for the C6 witness: the FIFO holds one SOFTRESET control
frame. -/
def c6_env : Env := { quietEnv with fifo := [⟨CMT_SOFTRESET, []⟩] }

/-- Witness for C6: the SOFTRESET tick moves the negotiating source to
`policy_src_softrst`. -/
theorem C6_softreset_universality_witness :
    (state_machine_typec c6_chip { HwEvents.silent with gcrcsent := true } c6_env).conn_state =
      ConnState.policy_src_softrst := by
  have h := C6_softreset_universality c6_chip c6_env ⟨CMT_SOFTRESET, []⟩
    (by decide) rfl (by decide) (by decide) rfl (by decide)
  simpa using h.1

lemma mux_alert_tstate (chip : Chip) (hts : chip.timer_state = 0)
    (htm : chip.timer_mux ≠ 0) (hwc : chip.work_continue = 0) :
    mux_alert chip =
      ({ chip with timer_state := T_DISABLED }, EVENT_TIMER_STATE) := by
  simp only [mux_alert]
  simp [htm, hts, hwc]

lemma mux_alert_tmux (chip : Chip) (hts : chip.timer_state ≠ 0)
    (htm : chip.timer_mux = 0) (hwc : chip.work_continue = 0) :
    mux_alert chip =
      ({ chip with timer_mux := T_DISABLED }, EVENT_TIMER_MUX) := by
  simp only [mux_alert]
  simp [htm, hts, hwc]

/-- C10: a Reject or Wait answer to the sink's Request while no PD
contract exists returns the port to `policy_snk_wait_caps` with
`hardrst_count` saturated to `N_HARDRESET_COUNT + 1`; with the counter
saturated, a wait-caps timeout (state timer or mux timer) goes to
`error_recovery` or `disabled` and never to a soft- or hard-reset
state. -/
theorem C10_select_cap_reject_no_hardreset :
    (∀ (chip : Chip) (env : Env) (f : PdFrame),
        chip.conn_state = ConnState.policy_snk_select_cap →
        chip.sub_state = 2 →
        chip.notify.is_pd_connected = false →
        chip.work_continue = 0 → chip.timer_state ≠ 0 → chip.timer_mux ≠ 0 →
        tcpm_get_message env.fifo = some f →
        PD_HEADER_CNT f.head = 0 →
        (PD_HEADER_TYPE f.head = CMT_REJECT ∨ PD_HEADER_TYPE f.head = CMT_WAIT) →
        (state_machine_typec chip { HwEvents.silent with gcrcsent := true } env).conn_state =
            ConnState.policy_snk_wait_caps ∧
          (state_machine_typec chip { HwEvents.silent with gcrcsent := true } env).hardrst_count =
            N_HARDRESET_COUNT + 1) ∧
    (∀ (chip : Chip) (env : Env),
        chip.conn_state = ConnState.policy_snk_wait_caps →
        chip.hardrst_count > N_HARDRESET_COUNT →
        chip.work_continue = 0 → chip.timer_state = 0 → chip.timer_mux ≠ 0 →
        (state_machine_typec chip HwEvents.silent env).conn_state =
            (if chip.is_pd_support then ConnState.error_recovery
             else ConnState.disabled) ∧
          (state_machine_typec chip HwEvents.silent env).conn_state ≠
            ConnState.policy_snk_send_hardrst ∧
          (state_machine_typec chip HwEvents.silent env).conn_state ≠
            ConnState.policy_snk_send_softrst) ∧
    (∀ (chip : Chip) (env : Env),
        chip.conn_state = ConnState.policy_snk_wait_caps →
        chip.hardrst_count > N_HARDRESET_COUNT →
        chip.work_continue = 0 → chip.timer_state ≠ 0 → chip.timer_mux = 0 →
        (state_machine_typec chip HwEvents.silent env).conn_state =
            (if chip.is_pd_support then ConnState.error_recovery
             else ConnState.disabled) ∧
          (state_machine_typec chip HwEvents.silent env).conn_state ≠
            ConnState.policy_snk_send_hardrst ∧
          (state_machine_typec chip HwEvents.silent env).conn_state ≠
            ConnState.policy_snk_send_softrst) := by
  refine ⟨?_, ?_, ?_⟩
  · intro chip env f hstate hsub hpd hwc hts htm hfifo hcnt htype
    have hnotsoft : ¬PACKET_IS_CONTROL_MSG f.head CMT_SOFTRESET := by
      intro hs
      rcases htype with h | h <;>
        · rw [hs.2] at h; simp [CMT_SOFTRESET, CMT_REJECT, CMT_WAIT] at h
    have hmain : state_machine_typec chip { HwEvents.silent with gcrcsent := true } env =
        { chip with rec_head := f.head, rec_load := f.load,
                    conn_state := ConnState.policy_snk_wait_caps,
                    sub_state := 0, val_tmp := 0,
                    work_continue := EVENT_WORK_CONTINUE,
                    hardrst_count := N_HARDRESET_COUNT + 1 } := by
      unfold state_machine_typec
      rw [tcpc_alert_gcrc]
      dsimp only
      rw [mux_alert_idle chip hts htm hwc]
      dsimp only
      simp only [EVENT_RX, EVENT_CC, EVENT_DELAY_CC, EVENT_TX, Nat.or_zero,
        tx_event_update,
        (show (2:Nat) &&& 4 = 0 by decide), (show (2:Nat) &&& 2 = 2 by decide),
        (show (2:Nat) &&& (1 ||| 256) = 0 by decide), (show ¬(2:Nat) = 0 by decide)]
      norm_num
      unfold tick_rx_phase
      rw [hfifo]
      dsimp only
      rw [if_neg (by simpa using hnotsoft)]
      simp only [tick_dispatch, hstate]
      unfold fusb_state_snk_select_cap
      rw [hsub]
      norm_num
      unfold fusb_state_snk_select_cap_tail
      rcases htype with h | h <;>
        simp [hcnt, h, hpd, hwc, set_state, CMT_ACCEPT, CMT_REJECT, CMT_WAIT,
          (show (2:Nat) &&& 2 ≠ 0 by decide), EVENT_RX]
    rw [hmain]
    exact ⟨rfl, rfl⟩
  · intro chip env hstate hhr hwc hts htm
    have hmain : (state_machine_typec chip HwEvents.silent env).conn_state =
        (if chip.is_pd_support then ConnState.error_recovery
         else ConnState.disabled) := by
      unfold state_machine_typec
      rw [tcpc_alert_silent]
      dsimp only
      rw [mux_alert_tstate chip hts htm hwc]
      dsimp only
      simp only [EVENT_TIMER_STATE, EVENT_CC, EVENT_DELAY_CC, EVENT_RX, EVENT_TX,
        Nat.zero_or, tx_event_update,
        (show (128:Nat) &&& 4 = 0 by decide), (show (128:Nat) &&& 2 = 0 by decide),
        (show (128:Nat) &&& (1 ||| 256) = 0 by decide),
        (show ¬(128:Nat) = 0 by decide)]
      norm_num
      simp only [tick_dispatch, hstate]
      unfold fusb_state_snk_wait_caps
      have hnotle : ¬chip.hardrst_count ≤ N_HARDRESET_COUNT := by omega
      by_cases hps : chip.is_pd_support <;>
        simp [hnotle, hps, set_state,
          (show (128:Nat) &&& 2 = 0 by decide),
          (show (128:Nat) &&& 128 ≠ 0 by decide), EVENT_RX, EVENT_TIMER_STATE]
    refine ⟨hmain, ?_, ?_⟩ <;> rw [hmain] <;> split <;> decide
  · intro chip env hstate hhr hwc hts htm
    have hmain : (state_machine_typec chip HwEvents.silent env).conn_state =
        (if chip.is_pd_support then ConnState.error_recovery
         else ConnState.disabled) := by
      unfold state_machine_typec
      rw [tcpc_alert_silent]
      dsimp only
      rw [mux_alert_tmux chip hts htm hwc]
      dsimp only
      simp only [EVENT_TIMER_MUX, EVENT_CC, EVENT_DELAY_CC, EVENT_RX, EVENT_TX,
        Nat.zero_or, tx_event_update,
        (show (64:Nat) &&& 4 = 0 by decide), (show (64:Nat) &&& 2 = 0 by decide),
        (show (64:Nat) &&& (1 ||| 256) = 0 by decide),
        (show ¬(64:Nat) = 0 by decide)]
      norm_num
      simp only [tick_dispatch, hstate]
      unfold fusb_state_snk_wait_caps
      by_cases hps : chip.is_pd_support <;>
        simp [hhr, hps, set_state,
          (show (64:Nat) &&& 2 = 0 by decide),
          (show (64:Nat) &&& 128 = 0 by decide),
          (show (64:Nat) &&& 64 ≠ 0 by decide), EVENT_RX, EVENT_TIMER_STATE,
          EVENT_TIMER_MUX]
    refine ⟨hmain, ?_, ?_⟩ <;> rw [hmain] <;> split <;> decide

/-- Scenario port for the C10 witness: sink waiting for the answer to its
Request, no contract yet. -/
def c10_chip : Chip :=
  { defaultChip with conn_state := ConnState.policy_snk_select_cap,
                     sub_state := 2 }

/-- Environment for the C10 witness: the FIFO holds one Reject control
frame. -/
def c10_env : Env := { quietEnv with fifo := [⟨CMT_REJECT, []⟩] }

/-- Scenario port for the second half of the C10 witness: back in
wait-caps with the saturated counter when the wait-caps timer fires. -/
def c10_chip2 : Chip :=
  { defaultChip with conn_state := ConnState.policy_snk_wait_caps,
                     hardrst_count := N_HARDRESET_COUNT + 1,
                     is_pd_support := true, timer_state := 0 }

/-- Witness for C10: the Reject saturates the counter and the following
timeout goes to `error_recovery`, not to a hard reset. -/
theorem C10_select_cap_reject_no_hardreset_witness :
    (state_machine_typec c10_chip { HwEvents.silent with gcrcsent := true } c10_env).hardrst_count =
      N_HARDRESET_COUNT + 1 ∧
    (state_machine_typec c10_chip2 HwEvents.silent quietEnv).conn_state =
      ConnState.error_recovery ∧
    (state_machine_typec c10_chip2 HwEvents.silent quietEnv).conn_state ≠
      ConnState.policy_snk_send_hardrst := by
  have h1 := C10_select_cap_reject_no_hardreset.1 c10_chip c10_env ⟨CMT_REJECT, []⟩
    rfl rfl rfl rfl (by decide) (by decide) rfl (by decide) (Or.inl (by decide))
  have h2 := C10_select_cap_reject_no_hardreset.2.1 c10_chip2 quietEnv
    rfl (by decide) rfl rfl (by decide)
  exact ⟨h1.2, by simpa using h2.1, h2.2.1⟩

lemma platform_fusb_notify_conn_state (chip : Chip) :
    (platform_fusb_notify chip).1.conn_state = chip.conn_state := by
  unfold platform_fusb_notify
  dsimp only
  split <;> rfl

lemma platform_fusb_notify_vdm_state (chip : Chip) :
    (platform_fusb_notify chip).1.vdm_state = chip.vdm_state := by
  unfold platform_fusb_notify
  dsimp only
  split <;> rfl

/-- Scenario port for the C8 counterexample: a DFP source freshly in
`policy_src_ready`, partner sink capabilities not yet recorded
(`partner_cap[0] = 0`), Auto-VDM engine in SVID discovery. -/
def c8_cx_chip : Chip :=
  { defaultChip with
      conn_state := ConnState.policy_src_ready,
      vdm_state := VDM_STATE_DISCOVERY_SVID,
      notify := { NotifyInfo.zero with power_role := POWER_ROLE_SOURCE, data_role := DATA_ROLE_DFP } }

/-- Environment delivering one structured VDM NACK (for Discover SVIDs)
to the receive FIFO. -/
def c8_env : Env :=
  { quietEnv with
      fifo := [⟨(1 <<< 12) ||| DMT_VENDERDEFINED,
                [(1 <<< 15) ||| (VDM_TYPE_NACK <<< 6) ||| VDM_DISCOVERY_SVIDS]⟩] }

/-- Counterexample to C8 as stated: in `policy_src_ready` with no
recorded partner sink capabilities, the VDM-NACK tick does set
`vdm_state` to the terminal error value, but `conn_state` does not stay
at the ready state: the same tick proceeds to
`policy_src_get_sink_caps`. -/
theorem C8_counterexample :
    (state_machine_typec c8_cx_chip { HwEvents.silent with gcrcsent := true }
        c8_env).vdm_state = VDM_STATE_ERR ∧
    (state_machine_typec c8_cx_chip { HwEvents.silent with gcrcsent := true }
        c8_env).conn_state ≠ ConnState.policy_src_ready ∧
    (state_machine_typec c8_cx_chip { HwEvents.silent with gcrcsent := true }
        c8_env).conn_state = ConnState.policy_src_get_sink_caps := by
  refine ⟨?_, ?_, ?_⟩ <;> decide

/-- C8 (amended): a VDM NACK received on a ready-state tick always sets
`vdm_state` to `VDM_STATE_ERR` without tearing down the PD connection:
in `policy_snk_ready` the connection state is unchanged, and in
`policy_src_ready` it is unchanged unless the partner's sink
capabilities are still unrecorded (`partner_cap[0] = 0`), in which case
the tick proceeds to the PD-connected fetch state
`policy_src_get_sink_caps` independently of the NACK. -/
theorem C8_vdm_nack_isolation :
    (∀ (chip : Chip) (env : Env) (f : PdFrame),
        chip.conn_state = ConnState.policy_snk_ready →
        chip.work_continue = 0 → chip.timer_state ≠ 0 → chip.timer_mux ≠ 0 →
        tcpm_get_message env.fifo = some f →
        PACKET_IS_DATA_MSG f.head DMT_VENDERDEFINED →
        GET_VDMHEAD_STRUCT_TYPE (f.load.getD 0 0) ≠ 0 →
        GET_VDMHEAD_CMD_TYPE (f.load.getD 0 0) = VDM_TYPE_NACK →
        (state_machine_typec chip { HwEvents.silent with gcrcsent := true } env).conn_state =
            ConnState.policy_snk_ready ∧
          (state_machine_typec chip { HwEvents.silent with gcrcsent := true } env).vdm_state =
            VDM_STATE_ERR) ∧
    (∀ (chip : Chip) (env : Env) (f : PdFrame),
        chip.conn_state = ConnState.policy_src_ready →
        chip.work_continue = 0 → chip.timer_state ≠ 0 → chip.timer_mux ≠ 0 →
        tcpm_get_message env.fifo = some f →
        PACKET_IS_DATA_MSG f.head DMT_VENDERDEFINED →
        GET_VDMHEAD_STRUCT_TYPE (f.load.getD 0 0) ≠ 0 →
        GET_VDMHEAD_CMD_TYPE (f.load.getD 0 0) = VDM_TYPE_NACK →
        (state_machine_typec chip { HwEvents.silent with gcrcsent := true } env).conn_state =
            (if chip.partner_cap.getD 0 0 = 0 then ConnState.policy_src_get_sink_caps
             else ConnState.policy_src_ready) ∧
          (state_machine_typec chip { HwEvents.silent with gcrcsent := true } env).vdm_state =
            VDM_STATE_ERR) := by
  constructor
  · intro chip env f hstate hwc hts htm hfifo hvdm hstruct hnack
    have hnotsoft : ¬PACKET_IS_CONTROL_MSG f.head CMT_SOFTRESET := by
      intro hs; exact hvdm.1 hs.1
    have hcnt : PD_HEADER_CNT f.head ≠ 0 := hvdm.1
    have hty : PD_HEADER_TYPE f.head = DMT_VENDERDEFINED := hvdm.2
    have hstruct2 : GET_VDMHEAD_STRUCT_TYPE (f.load[0]?.getD 0) ≠ 0 := by
      simpa [List.getD] using hstruct
    have hnack2 : GET_VDMHEAD_CMD_TYPE (f.load[0]?.getD 0) = VDM_TYPE_NACK := by
      simpa [List.getD] using hnack
    unfold state_machine_typec
    rw [tcpc_alert_gcrc]
    dsimp only
    rw [mux_alert_idle chip hts htm hwc]
    dsimp only
    simp only [EVENT_RX, EVENT_CC, EVENT_DELAY_CC, EVENT_TX, Nat.or_zero,
      tx_event_update,
      (show (2:Nat) &&& 4 = 0 by decide), (show (2:Nat) &&& 2 = 2 by decide),
      (show (2:Nat) &&& (1 ||| 256) = 0 by decide), (show ¬(2:Nat) = 0 by decide)]
    norm_num
    unfold tick_rx_phase
    rw [hfifo]
    dsimp only
    rw [if_neg (by simpa using hnotsoft)]
    simp only [tick_dispatch, hstate]
    simp [fusb_state_snk_ready, process_vdm_msg, fusb_state_swap_msg_process,
      VDM_IS_ACTIVE, PACKET_IS_DATA_MSG, PACKET_IS_CONTROL_MSG, List.getD,
      hcnt, hty, hstruct2, hnack2, VDM_TYPE_INIT, VDM_TYPE_ACK, VDM_TYPE_NACK,
      VDM_STATE_ERR, VDM_STATE_READY, EVENT_RX,
      platform_fusb_notify_conn_state, platform_fusb_notify_vdm_state, set_state]
  · intro chip env f hstate hwc hts htm hfifo hvdm hstruct hnack
    have hnotsoft : ¬PACKET_IS_CONTROL_MSG f.head CMT_SOFTRESET := by
      intro hs; exact hvdm.1 hs.1
    have hcnt : PD_HEADER_CNT f.head ≠ 0 := hvdm.1
    have hty : PD_HEADER_TYPE f.head = DMT_VENDERDEFINED := hvdm.2
    have hstruct2 : GET_VDMHEAD_STRUCT_TYPE (f.load[0]?.getD 0) ≠ 0 := by
      simpa [List.getD] using hstruct
    have hnack2 : GET_VDMHEAD_CMD_TYPE (f.load[0]?.getD 0) = VDM_TYPE_NACK := by
      simpa [List.getD] using hnack
    unfold state_machine_typec
    rw [tcpc_alert_gcrc]
    dsimp only
    rw [mux_alert_idle chip hts htm hwc]
    dsimp only
    simp only [EVENT_RX, EVENT_CC, EVENT_DELAY_CC, EVENT_TX, Nat.or_zero,
      tx_event_update,
      (show (2:Nat) &&& 4 = 0 by decide), (show (2:Nat) &&& 2 = 2 by decide),
      (show (2:Nat) &&& (1 ||| 256) = 0 by decide), (show ¬(2:Nat) = 0 by decide)]
    norm_num
    unfold tick_rx_phase
    rw [hfifo]
    dsimp only
    rw [if_neg (by simpa using hnotsoft)]
    simp only [tick_dispatch, hstate]
    by_cases hpc : chip.partner_cap[0]?.getD 0 = 0
    · simp [fusb_state_src_ready, process_vdm_msg, fusb_state_swap_msg_process,
        VDM_IS_ACTIVE, PACKET_IS_DATA_MSG, PACKET_IS_CONTROL_MSG, List.getD,
        hcnt, hty, hstruct2, hnack2, hpc, VDM_TYPE_INIT, VDM_TYPE_ACK,
        VDM_TYPE_NACK, VDM_STATE_ERR, VDM_STATE_READY, EVENT_RX, set_state]
    · simp [fusb_state_src_ready, process_vdm_msg, fusb_state_swap_msg_process,
        VDM_IS_ACTIVE, PACKET_IS_DATA_MSG, PACKET_IS_CONTROL_MSG, List.getD,
        hcnt, hty, hstruct2, hnack2, hpc, VDM_TYPE_INIT, VDM_TYPE_ACK,
        VDM_TYPE_NACK, VDM_STATE_ERR, VDM_STATE_READY, EVENT_RX, set_state]

/-- Scenario port for the C8 witness: a dual-role sink in
`policy_snk_ready` running SVID discovery as DFP. -/
def c8_snk_chip : Chip :=
  { defaultChip with
      conn_state := ConnState.policy_snk_ready,
      vdm_state := VDM_STATE_DISCOVERY_SVID,
      notify := { NotifyInfo.zero with power_role := POWER_ROLE_SINK, data_role := DATA_ROLE_DFP, is_pd_connected := true } }

/-- Witness for C8 (amended): the sink-side NACK tick keeps
`policy_snk_ready` while parking the Auto-VDM engine in its error
state. -/
theorem C8_vdm_nack_isolation_witness :
    (state_machine_typec c8_snk_chip { HwEvents.silent with gcrcsent := true }
        c8_env).conn_state = ConnState.policy_snk_ready ∧
    (state_machine_typec c8_snk_chip { HwEvents.silent with gcrcsent := true }
        c8_env).vdm_state = VDM_STATE_ERR :=
  C8_vdm_nack_isolation.1 c8_snk_chip c8_env
    ⟨(1 <<< 12) ||| DMT_VENDERDEFINED,
     [(1 <<< 15) ||| (VDM_TYPE_NACK <<< 6) ||| VDM_DISCOVERY_SVIDS]⟩
    rfl rfl (by decide) (by decide) rfl (by decide) (by decide) (by decide)

/-! ## C1: CC debounce in the attach-wait handlers -/

/-- One debounce step of an attach-wait handler `H` from its state `S`:
a matching sample past `N_DEBOUNCE_CNT` commits and leaves `S`; a matching
sample at or below the threshold only bumps the counter; a differing
sample latches the new pair and resets the counter to 0. -/
def debounceStep (S : ConnState) (H : Chip → Env → Chip) (c : Chip) (e : Env) : Prop :=
  (tcpm_get_cc c e = (c.cc1, c.cc2) ∧ N_DEBOUNCE_CNT < c.debounce_cnt + 1 ∧
     (H c e).conn_state ≠ S) ∨
  (tcpm_get_cc c e = (c.cc1, c.cc2) ∧ ¬N_DEBOUNCE_CNT < c.debounce_cnt + 1 ∧
     (H c e).conn_state = c.conn_state ∧ (H c e).cc_state = c.cc_state ∧
     (H c e).cc1 = c.cc1 ∧ (H c e).cc2 = c.cc2 ∧
     (H c e).debounce_cnt = c.debounce_cnt + 1) ∨
  (tcpm_get_cc c e ≠ (c.cc1, c.cc2) ∧
     (H c e).conn_state = c.conn_state ∧ (H c e).cc_state = c.cc_state ∧
     (H c e).cc1 = (tcpm_get_cc c e).1 ∧ (H c e).cc2 = (tcpm_get_cc c e).2 ∧
     (H c e).debounce_cnt = 0)

/-- `fusb_state_attach_wait_source` satisfies the debounce step contract
(fusb302.c lines 1667-1703). -/
lemma attach_wait_source_dstep (c : Chip) (e : Env) :
    debounceStep ConnState.attach_wait_source
      (fun c e => fusb_state_attach_wait_source c EVENT_TIMER_MUX e) c e := by
  unfold debounceStep fusb_state_attach_wait_source
  by_cases hmatch : c.cc1 = (tcpm_get_cc c e).1 ∧ c.cc2 = (tcpm_get_cc c e).2
  · by_cases hbig : N_DEBOUNCE_CNT < c.debounce_cnt + 1
    · refine Or.inl ⟨Prod.ext hmatch.1.symm hmatch.2.symm, hbig, ?_⟩
      dsimp only
      rw [if_pos (show EVENT_TIMER_MUX &&& EVENT_TIMER_MUX ≠ 0 by decide),
          if_pos hmatch]
      dsimp only
      rw [if_pos (show c.debounce_cnt + 1 > N_DEBOUNCE_CNT from hbig)]
      split
      · split
        · simp [fusb_state_try_attach_set, ROLE_MODE_UFP, ROLE_MODE_NONE,
            ROLE_MODE_DRP, ROLE_MODE_ASS, ROLE_MODE_DFP, tcpm_init, set_state]
        · simp [set_state]
      · simp [set_state_unattached, set_state, tcpm_init,
          platform_fusb_notify_conn_state]
    · refine Or.inr (Or.inl ⟨Prod.ext hmatch.1.symm hmatch.2.symm, hbig,
        ?_, ?_, ?_, ?_, ?_⟩) <;>
      · dsimp only
        rw [if_pos (show EVENT_TIMER_MUX &&& EVENT_TIMER_MUX ≠ 0 by decide),
            if_pos hmatch]
        dsimp only
        rw [if_neg (show ¬c.debounce_cnt + 1 > N_DEBOUNCE_CNT from hbig)]
  · have hne : tcpm_get_cc c e ≠ (c.cc1, c.cc2) := by
      intro hcontra
      exact hmatch ⟨by rw [hcontra], by rw [hcontra]⟩
    refine Or.inr (Or.inr ⟨hne, ?_, ?_, ?_, ?_, ?_⟩) <;>
    · dsimp only
      rw [if_pos (show EVENT_TIMER_MUX &&& EVENT_TIMER_MUX ≠ 0 by decide),
          if_neg hmatch]
      dsimp only
      rw [if_neg (show ¬(0 : Nat) > N_DEBOUNCE_CNT by decide)]


/-- `fusb_state_attach_wait_sink` satisfies the debounce step contract
when VBUS is absent, so that the VBUS fast paths are not taken
(fusb302.c lines 1614-1665). -/
lemma attach_wait_sink_dstep (c : Chip) (e : Env) (hv : e.vbus = false) :
    debounceStep ConnState.attach_wait_sink
      (fun c e => fusb_state_attach_wait_sink c EVENT_TIMER_MUX e) c e := by
  unfold debounceStep fusb_state_attach_wait_sink
  have hnv : tcpm_check_vbus e = false := by simp [tcpm_check_vbus, hv]
  by_cases hmatch : c.cc1 = (tcpm_get_cc c e).1 ∧ c.cc2 = (tcpm_get_cc c e).2
  · by_cases hbig : N_DEBOUNCE_CNT < c.debounce_cnt + 1
    · refine Or.inl ⟨Prod.ext hmatch.1.symm hmatch.2.symm, hbig, ?_⟩
      dsimp only
      rw [if_pos (show EVENT_TIMER_MUX &&& EVENT_TIMER_MUX ≠ 0 by decide)]
      simp only [hnv, Bool.false_eq_true, false_and, if_false]
      rw [if_pos hmatch]
      dsimp only
      rw [if_pos (show c.debounce_cnt + 1 > N_DEBOUNCE_CNT from hbig)]
      split
      · simp [set_state]
      · simp [set_state_unattached, set_state, tcpm_init,
          platform_fusb_notify_conn_state]
    · refine Or.inr (Or.inl ⟨Prod.ext hmatch.1.symm hmatch.2.symm, hbig,
        ?_, ?_, ?_, ?_, ?_⟩) <;>
      · dsimp only
        rw [if_pos (show EVENT_TIMER_MUX &&& EVENT_TIMER_MUX ≠ 0 by decide)]
        simp only [hnv, Bool.false_eq_true, false_and, if_false]
        rw [if_pos hmatch]
        dsimp only
        rw [if_neg (show ¬c.debounce_cnt + 1 > N_DEBOUNCE_CNT from hbig)]
  · have hne : tcpm_get_cc c e ≠ (c.cc1, c.cc2) := by
      intro hcontra
      exact hmatch ⟨by rw [hcontra], by rw [hcontra]⟩
    refine Or.inr (Or.inr ⟨hne, ?_, ?_, ?_, ?_, ?_⟩) <;>
    · dsimp only
      rw [if_pos (show EVENT_TIMER_MUX &&& EVENT_TIMER_MUX ≠ 0 by decide)]
      simp only [hnv, Bool.false_eq_true, false_and, if_false]
      rw [if_neg hmatch]
      dsimp only
      rw [if_neg (show ¬(0 : Nat) > N_DEBOUNCE_CNT by decide)]

/-- `fusb_state_attach_wait_audio_acc` satisfies the debounce step
contract (fusb302.c lines 1786-1817). -/
lemma attach_wait_audio_acc_dstep (c : Chip) (e : Env) :
    debounceStep ConnState.attach_wait_audio_acc
      (fun c e => fusb_state_attach_wait_audio_acc c EVENT_TIMER_MUX e) c e := by
  unfold debounceStep fusb_state_attach_wait_audio_acc
  by_cases hmatch : c.cc1 = (tcpm_get_cc c e).1 ∧ c.cc2 = (tcpm_get_cc c e).2
  · by_cases hbig : N_DEBOUNCE_CNT < c.debounce_cnt + 1
    · refine Or.inl ⟨Prod.ext hmatch.1.symm hmatch.2.symm, hbig, ?_⟩
      dsimp only
      rw [if_pos (show EVENT_TIMER_MUX &&& EVENT_TIMER_MUX ≠ 0 by decide),
          if_pos hmatch]
      dsimp only
      rw [if_pos (show c.debounce_cnt + 1 > N_DEBOUNCE_CNT from hbig)]
      split
      · simp [set_state]
      · simp [set_state_unattached, set_state, tcpm_init,
          platform_fusb_notify_conn_state]
    · refine Or.inr (Or.inl ⟨Prod.ext hmatch.1.symm hmatch.2.symm, hbig,
        ?_, ?_, ?_, ?_, ?_⟩) <;>
      · dsimp only
        rw [if_pos (show EVENT_TIMER_MUX &&& EVENT_TIMER_MUX ≠ 0 by decide),
            if_pos hmatch]
        dsimp only
        rw [if_neg (show ¬c.debounce_cnt + 1 > N_DEBOUNCE_CNT from hbig)]
  · have hne : tcpm_get_cc c e ≠ (c.cc1, c.cc2) := by
      intro hcontra
      exact hmatch ⟨by rw [hcontra], by rw [hcontra]⟩
    refine Or.inr (Or.inr ⟨hne, ?_, ?_, ?_, ?_, ?_⟩) <;>
    · dsimp only
      rw [if_pos (show EVENT_TIMER_MUX &&& EVENT_TIMER_MUX ≠ 0 by decide),
          if_neg hmatch]
      dsimp only
      rw [if_neg (show ¬(0 : Nat) > N_DEBOUNCE_CNT by decide)]


/-- Number of leading entries of a sample trace (most recent first)
equal to `v`. -/
def leadCount (v : Nat × Nat) : List (Nat × Nat) → Nat
  | [] => 0
  | x :: xs => if x = v then leadCount v xs + 1 else 0

/-- `hasBlock k l` holds when the trace `l` (most recent sample first)
contains `k` consecutive identical entries. -/
def hasBlock (k : Nat) : List (Nat × Nat) → Bool
  | [] => false
  | x :: xs => decide (k ≤ leadCount x xs + 1) || hasBlock k xs

/-- Feed one CC sample per environment to the handler `H`, stopping as
soon as the handler leaves its own state `S` (the dispatch in
`state_machine_typec` would then route events elsewhere). -/
def debounceRun (S : ConnState) (H : Chip → Env → Chip) : Chip → List Env → Chip
  | chip, [] => chip
  | chip, e :: es =>
    if chip.conn_state = S then debounceRun S H (H chip e) es else chip

/-- Debounce invariant: either the observed trace already contains
`N_DEBOUNCE_CNT+2` consecutive identical samples, or the handler is still
in its state with the counter bounded by the run of trailing samples
equal to the latched pair. -/
def debounceInv (S : ConnState) (cs : Nat) (full : List (Nat × Nat)) (c : Chip) : Prop :=
  hasBlock (N_DEBOUNCE_CNT + 2) full = true ∨
  (c.conn_state = S ∧ c.cc_state = cs ∧
   c.debounce_cnt + 1 ≤ leadCount (c.cc1, c.cc2) full)

lemma hasBlock_cons {k : Nat} {x : Nat × Nat} {l : List (Nat × Nat)}
    (h : hasBlock k l = true) : hasBlock k (x :: l) = true := by
  simp only [hasBlock, Bool.or_eq_true]
  exact Or.inr h

lemma hasBlock_append {k : Nat} {l l2 : List (Nat × Nat)}
    (h : hasBlock k l2 = true) : hasBlock k (l ++ l2) = true := by
  induction l with
  | nil => simpa using h
  | cons x xs ih => exact hasBlock_cons ih

lemma tcpm_get_cc_congr {c c2 : Chip} (e : Env) (h : c.cc_state = c2.cc_state) :
    tcpm_get_cc c e = tcpm_get_cc c2 e := by
  simp [tcpm_get_cc, CC_STATE_ROLE, h]

/-- The debounce invariant is preserved by any run of a handler
satisfying the step contract. -/
lemma debounceRun_inv (S : ConnState) (H : Chip → Env → Chip) (Pe : Env → Prop)
    (chip0 : Chip)
    (hstep : ∀ c e, c.conn_state = S → c.cc_state = chip0.cc_state → Pe e →
               debounceStep S H c e) :
    ∀ (envs : List Env) (chip : Chip) (full : List (Nat × Nat)),
      (∀ e ∈ envs, Pe e) →
      debounceInv S chip0.cc_state full chip →
      debounceInv S chip0.cc_state
        ((envs.map fun e => tcpm_get_cc chip0 e).reverse ++ full)
        (debounceRun S H chip envs) := by
  intro envs
  induction envs with
  | nil => intro chip full _ hinv; simpa [debounceRun] using hinv
  | cons e es ih =>
    intro chip full hPe hinv
    have hPe2 : ∀ x ∈ es, Pe x := fun x hx => hPe x (List.mem_cons_of_mem e hx)
    have hlist :
        (((e :: es).map fun x => tcpm_get_cc chip0 x).reverse ++ full) =
          ((es.map fun x => tcpm_get_cc chip0 x).reverse ++
            (tcpm_get_cc chip0 e :: full)) := by
      simp [List.append_assoc]
    rw [hlist]
    by_cases hS : chip.conn_state = S
    · rw [show debounceRun S H chip (e :: es) = debounceRun S H (H chip e) es by
        simp [debounceRun, hS]]
      rcases hinv with hblk | ⟨_, hcs, hcnt⟩
      · exact ih (H chip e) (tcpm_get_cc chip0 e :: full) hPe2
          (Or.inl (hasBlock_cons hblk))
      · have hsamp : tcpm_get_cc chip e = tcpm_get_cc chip0 e :=
          tcpm_get_cc_congr e hcs
        rcases hstep chip e hS hcs (hPe e (List.mem_cons_self e es)) with
          ⟨hmatch, hbig, _⟩ | ⟨hmatch, hsmall, hconn, hccs, hcc1, hcc2, hdcnt⟩ |
          ⟨hmiss, hconn, hccs, hcc1, hcc2, hdcnt⟩
        · refine ih (H chip e) (tcpm_get_cc chip0 e :: full) hPe2 (Or.inl ?_)
          have hlead : leadCount (tcpm_get_cc chip0 e) full =
              leadCount (chip.cc1, chip.cc2) full := by
            rw [← hsamp, hmatch]
          simp only [hasBlock, Bool.or_eq_true, decide_eq_true_eq]
          refine Or.inl ?_
          rw [hlead]
          omega
        · refine ih (H chip e) (tcpm_get_cc chip0 e :: full) hPe2
            (Or.inr ⟨by rw [hconn]; exact hS, by rw [hccs]; exact hcs, ?_⟩)
          have hhead : tcpm_get_cc chip0 e = (chip.cc1, chip.cc2) := by
            rw [← hsamp, hmatch]
          have hlc : leadCount ((H chip e).cc1, (H chip e).cc2)
              (tcpm_get_cc chip0 e :: full) =
              leadCount (chip.cc1, chip.cc2) full + 1 := by
            rw [hcc1, hcc2]
            simp [leadCount, hhead]
          rw [hlc, hdcnt]
          omega
        · refine ih (H chip e) (tcpm_get_cc chip0 e :: full) hPe2
            (Or.inr ⟨by rw [hconn]; exact hS, by rw [hccs]; exact hcs, ?_⟩)
          have hlc : 1 ≤ leadCount ((H chip e).cc1, (H chip e).cc2)
              (tcpm_get_cc chip0 e :: full) := by
            rw [hcc1, hcc2, ← hsamp]
            simp [leadCount]
          rw [hdcnt]
          exact hlc
    · rw [show debounceRun S H chip (e :: es) = chip by simp [debounceRun, hS]]
      rcases hinv with hblk | ⟨hc, _⟩
      · exact Or.inl (hasBlock_append (hasBlock_cons hblk))
      · exact absurd hc hS


/-- Scenario for the C1 witness: a DFP in `attach_wait_source` with the
latched pair (Rd, open) and a fresh counter. -/
def c1_chip : Chip :=
  { defaultChip with
      conn_state := ConnState.attach_wait_source,
      role := ROLE_MODE_DFP,
      cc_state := CC_STATE_TOGSS_IS_DFP ||| CC_STATE_TOGSS_CC1,
      cc1 := TYPEC_CC_VOLT_RD, cc2 := TYPEC_CC_VOLT_OPEN,
      debounce_cnt := 0 }

/-- Environment whose CC1 pull-up comparator reads Rd, matching the
latched pair of `c1_chip`. -/
def c1_env : Env := { quietEnv with cc_pull_up1 := TYPEC_CC_VOLT_RD }

/-- Scenario for the C1 reset witness: a UFP in `attach_wait_sink` with
an open/open latched pair and a part-way counter. -/
def c1_chip2 : Chip :=
  { defaultChip with
      conn_state := ConnState.attach_wait_sink,
      cc_state := CC_STATE_TOGSS_IS_UFP,
      cc1 := TYPEC_CC_VOLT_OPEN, cc2 := TYPEC_CC_VOLT_OPEN,
      debounce_cnt := 5 }

/-- Environment whose CC1 pull-down comparator reads Rp, differing from
the latched pair of `c1_chip2`. -/
def c1_env2 : Env := { quietEnv with cc_pull_down1 := TYPEC_CC_VOLT_RP }

/-- C1: in all three attach-wait handlers (sink, source, audio
accessory), a CC-classification-dependent state transition occurs only
after `N_DEBOUNCE_CNT+1` consecutive identical `(cc1,cc2)` samples: any
run leaving the attach-wait state forces `N_DEBOUNCE_CNT+2` consecutive
identical entries in the observed trace (the entry-latched pair plus the
`N_DEBOUNCE_CNT+1` in-run samples), and any single differing sample
resets `debounce_cnt` to 0 without a transition. -/
theorem C1_debounce_monotonicity :
    (∀ (c : Chip) (e : Env), e.vbus = false →
        tcpm_get_cc c e ≠ (c.cc1, c.cc2) →
        (fusb_state_attach_wait_sink c EVENT_TIMER_MUX e).debounce_cnt = 0 ∧
        (fusb_state_attach_wait_sink c EVENT_TIMER_MUX e).conn_state =
          c.conn_state) ∧
    (∀ (c : Chip) (e : Env),
        tcpm_get_cc c e ≠ (c.cc1, c.cc2) →
        (fusb_state_attach_wait_source c EVENT_TIMER_MUX e).debounce_cnt = 0 ∧
        (fusb_state_attach_wait_source c EVENT_TIMER_MUX e).conn_state =
          c.conn_state) ∧
    (∀ (c : Chip) (e : Env),
        tcpm_get_cc c e ≠ (c.cc1, c.cc2) →
        (fusb_state_attach_wait_audio_acc c EVENT_TIMER_MUX e).debounce_cnt = 0 ∧
        (fusb_state_attach_wait_audio_acc c EVENT_TIMER_MUX e).conn_state =
          c.conn_state) ∧
    (∀ (chip : Chip) (envs : List Env),
        (∀ e ∈ envs, e.vbus = false) →
        chip.conn_state = ConnState.attach_wait_sink →
        chip.debounce_cnt = 0 →
        (debounceRun ConnState.attach_wait_sink
            (fun c e => fusb_state_attach_wait_sink c EVENT_TIMER_MUX e)
            chip envs).conn_state ≠ ConnState.attach_wait_sink →
        hasBlock (N_DEBOUNCE_CNT + 2)
          ((envs.map fun e => tcpm_get_cc chip e).reverse ++
            [(chip.cc1, chip.cc2)]) = true) ∧
    (∀ (chip : Chip) (envs : List Env),
        chip.conn_state = ConnState.attach_wait_source →
        chip.debounce_cnt = 0 →
        (debounceRun ConnState.attach_wait_source
            (fun c e => fusb_state_attach_wait_source c EVENT_TIMER_MUX e)
            chip envs).conn_state ≠ ConnState.attach_wait_source →
        hasBlock (N_DEBOUNCE_CNT + 2)
          ((envs.map fun e => tcpm_get_cc chip e).reverse ++
            [(chip.cc1, chip.cc2)]) = true) ∧
    (∀ (chip : Chip) (envs : List Env),
        chip.conn_state = ConnState.attach_wait_audio_acc →
        chip.debounce_cnt = 0 →
        (debounceRun ConnState.attach_wait_audio_acc
            (fun c e => fusb_state_attach_wait_audio_acc c EVENT_TIMER_MUX e)
            chip envs).conn_state ≠ ConnState.attach_wait_audio_acc →
        hasBlock (N_DEBOUNCE_CNT + 2)
          ((envs.map fun e => tcpm_get_cc chip e).reverse ++
            [(chip.cc1, chip.cc2)]) = true) := by
  refine ⟨?_, ?_, ?_, ?_, ?_, ?_⟩
  · intro c e hv hne
    rcases attach_wait_sink_dstep c e hv with
      ⟨hmatch, _⟩ | ⟨hmatch, _⟩ | ⟨_, hconn, _, _, _, hd⟩
    · exact absurd hmatch hne
    · exact absurd hmatch hne
    · exact ⟨hd, hconn⟩
  · intro c e hne
    rcases attach_wait_source_dstep c e with
      ⟨hmatch, _⟩ | ⟨hmatch, _⟩ | ⟨_, hconn, _, _, _, hd⟩
    · exact absurd hmatch hne
    · exact absurd hmatch hne
    · exact ⟨hd, hconn⟩
  · intro c e hne
    rcases attach_wait_audio_acc_dstep c e with
      ⟨hmatch, _⟩ | ⟨hmatch, _⟩ | ⟨_, hconn, _, _, _, hd⟩
    · exact absurd hmatch hne
    · exact absurd hmatch hne
    · exact ⟨hd, hconn⟩
  · intro chip envs hvb hS0 hcnt0 hne
    have hfin := debounceRun_inv ConnState.attach_wait_sink
        (fun c e => fusb_state_attach_wait_sink c EVENT_TIMER_MUX e)
        (fun e => e.vbus = false) chip
        (fun c e _ _ he => attach_wait_sink_dstep c e he)
        envs chip [(chip.cc1, chip.cc2)] hvb
        (Or.inr ⟨hS0, rfl, by simp [leadCount, hcnt0]⟩)
    rcases hfin with hblk | ⟨hc, _⟩
    · exact hblk
    · exact absurd hc hne
  · intro chip envs hS0 hcnt0 hne
    have hfin := debounceRun_inv ConnState.attach_wait_source
        (fun c e => fusb_state_attach_wait_source c EVENT_TIMER_MUX e)
        (fun _ => True) chip
        (fun c e _ _ _ => attach_wait_source_dstep c e)
        envs chip [(chip.cc1, chip.cc2)] (fun _ _ => trivial)
        (Or.inr ⟨hS0, rfl, by simp [leadCount, hcnt0]⟩)
    rcases hfin with hblk | ⟨hc, _⟩
    · exact hblk
    · exact absurd hc hne
  · intro chip envs hS0 hcnt0 hne
    have hfin := debounceRun_inv ConnState.attach_wait_audio_acc
        (fun c e => fusb_state_attach_wait_audio_acc c EVENT_TIMER_MUX e)
        (fun _ => True) chip
        (fun c e _ _ _ => attach_wait_audio_acc_dstep c e)
        envs chip [(chip.cc1, chip.cc2)] (fun _ _ => trivial)
        (Or.inr ⟨hS0, rfl, by simp [leadCount, hcnt0]⟩)
    rcases hfin with hblk | ⟨hc, _⟩
    · exact hblk
    · exact absurd hc hne

/-- Witness for C1: an 11-sample constant run commits the source
classification, and one differing sample in `attach_wait_sink` resets the
counter to 0 without a transition. -/
theorem C1_debounce_monotonicity_witness :
    (hasBlock (N_DEBOUNCE_CNT + 2)
      (((List.replicate 11 c1_env).map fun e => tcpm_get_cc c1_chip e).reverse ++
        [(c1_chip.cc1, c1_chip.cc2)]) = true) ∧
    ((fusb_state_attach_wait_sink c1_chip2 EVENT_TIMER_MUX c1_env2).debounce_cnt =
        0 ∧
      (fusb_state_attach_wait_sink c1_chip2 EVENT_TIMER_MUX c1_env2).conn_state =
        c1_chip2.conn_state) :=
  ⟨C1_debounce_monotonicity.2.2.2.2.1 c1_chip (List.replicate 11 c1_env)
      (by decide) (by decide) (by decide),
    C1_debounce_monotonicity.1 c1_chip2 c1_env2 (by decide) (by decide)⟩


/-! ## C4: capability-retry termination -/

/-- Test harness tick for a transport that always fails capability
transmission: a pending transmission is answered by a retry-failure
interrupt, an armed state timer expires, and otherwise the pending work
continuation runs on an event-free tick. -/
def src_caps_fail_step (chip : Chip) : Chip :=
  if chip.tx_state = tx_busy then
    state_machine_typec chip { HwEvents.silent with retryfail := true } quietEnv
  else if chip.work_continue = 0 ∧ chip.timer_state ≠ T_DISABLED then
    state_machine_typec (fusb_timer_handler_state chip) HwEvents.silent quietEnv
  else
    state_machine_typec chip HwEvents.silent quietEnv

/-- Iterate `src_caps_fail_step`, counting transmission attempts (ticks
on which `tx_state` enters `tx_busy`). -/
def src_caps_fail_run : Chip → Nat → Chip × Nat
  | chip, 0 => (chip, 0)
  | chip, n+1 =>
    let next := src_caps_fail_step chip
    let r := src_caps_fail_run next n
    if chip.tx_state ≠ tx_busy ∧ next.tx_state = tx_busy then (r.1, r.2 + 1)
    else r

/-- Notification snapshot of a freshly attached DFP source. -/
def c4_notify : NotifyInfo :=
  { NotifyInfo.zero with
      is_cc_connected := true,
      power_role := POWER_ROLE_SOURCE,
      data_role := DATA_ROLE_DFP }

/-- A source entering `policy_src_send_caps` from `policy_src_startup`:
fresh `caps_counter`, idle transmitter, pending work continuation. -/
def c4_chip : Chip :=
  { defaultChip with
      conn_state := ConnState.policy_src_send_caps,
      sub_state := 0,
      work_continue := EVENT_WORK_CONTINUE,
      tx_state := tx_idle,
      caps_counter := 0,
      timer_state := T_DISABLED,
      timer_mux := T_DISABLED,
      hardrst_count := 0,
      is_pd_support := false,
      notify := c4_notify }

set_option maxRecDepth 16000 in
/-- C4: with a transport that always fails capability transmission, the
source cycle `policy_src_send_caps` -> `policy_src_discovery` reaches
`disabled` after 199 harness ticks having made exactly `N_CAPS_COUNT`
transmission attempts, and one tick later the machine is at a fixed point
of the harness (every further tick consumes no event and changes
nothing), so it never loops indefinitely. -/
theorem C4_caps_retry_termination :
    (src_caps_fail_run c4_chip 199).1.conn_state = ConnState.disabled ∧
    (src_caps_fail_run c4_chip 199).2 = N_CAPS_COUNT ∧
    src_caps_fail_step (src_caps_fail_run c4_chip 200).1 =
      (src_caps_fail_run c4_chip 200).1 := by
  refine ⟨by decide, by decide, by decide⟩

end Fusb302
